import Mathlib

/-!
# Real-Time-Clock-Display: shallow embedding of `Time.c` and of `UITask` (`Lab2.c`)

The C sources are embedded as state-passing functions over a `World` that holds the
module-level data of `Time.c` together with what the environment supplies (the error
code every uC/OS call reports) and a trace of the calls made.  `INT8U` values are
natural numbers; every assignment of a computed value to an `INT8U` is reduced
modulo 256.  The busy loop `while(os_err != OS_ERR_NONE){}` never ends once it is
entered, which is the outcome `halt`.
-/

namespace RTC

/-! ## Data model (`Time.h`, `Lab2.c` lines 17-33) -/

/-- The struct `TIME_T` of `Time.h`: three `INT8U` fields. -/
structure TIME_T where
  hr : Nat
  min : Nat
  sec : Nat
deriving DecidableEq, Repr

/-- The enum `UISTATE` of `Lab2.c`: `TIME` is the display state, `TIMESET` the edit state. -/
inductive UISTATE where
  | TIME
  | TIMESET
deriving DecidableEq, Repr

/-- The enum `SETSTATE` of `Lab2.c`: the six cursor slots. -/
inductive SETSTATE where
  | HOURTENS
  | HOURONES
  | MINUTETENS
  | MINUTEONES
  | SECONDTENS
  | SECONDONES
deriving DecidableEq, Repr

/-- The two semaphores of `Time.c`. -/
inductive Sem where
  | timeChgFlag
  | timeSecFlag
deriving DecidableEq, Repr

/-- The two LCD layers named by `Lab2.c` (declared in `LcdLayered.h`). -/
inductive Layer where
  | TIMESETLAYER
  | TIMEDISPLAYER
deriving DecidableEq, Repr

def ROW1 : Nat := 1
def ROW2 : Nat := 2
def COLUMN9 : Nat := 9
def COLUMN10 : Nat := 10
def COLUMN12 : Nat := 12
def COLUMN13 : Nat := 13
def COLUMN15 : Nat := 15
def COLUMN16 : Nat := 16
def A_PRESS : Nat := 0x11
def C_PRESS : Nat := 0x13
def CURSORON : Nat := 1
def BLINKON : Nat := 1
def CURSOROFF : Nat := 0
def BLINKOFF : Nat := 0

/-- The uC/OS-III success code. -/
def OS_ERR_NONE : Nat := 0

/-- Calls to the kernel, the drivers and the hardware, and accesses to `timeOfDay`,
in the order in which the code makes them. -/
inductive Ev where
  | OSSemCreate (s : Sem)
  | OSMutexCreate
  | OSTaskCreate
  | OSSemPend (s : Sem)
  | OSSemPost (s : Sem)
  | OSMutexPend
  | OSMutexPost
  | readTimeOfDay
  | writeTimeOfDay
  | rtcIrqSetup
  | KeyPend
  | DB (bit : Nat) (lit : Bool)
  | LcdDispTime (row col : Nat) (layer : Layer) (hr min sec : Nat)
  | LcdCursor (row col : Nat) (layer : Layer) (cursor blink : Nat)
  | LcdShowLayer (layer : Layer)
  | LcdHideLayer (layer : Layer)
deriving DecidableEq, Repr

/-- The state shared by the tasks: the static `timeOfDay` of `Time.c`, whether
`timeMutexKey` is held, the error code the kernel reports at its n-th call
(`os_err`, with `calls` the number of kernel calls made so far), and the trace. -/
structure World where
  timeOfDay : TIME_T
  mutexHeld : Bool
  os_err : Nat → Nat
  calls : Nat
  trace : List Ev

/-- A piece of code either runs to its end with a value, or is caught for ever in
a `while(os_err != OS_ERR_NONE){}` loop. -/
inductive Outcome (α : Type) where
  | ret (a : α) (w : World)
  | halt (w : World)

/-- The world in which the code ended or halted. -/
def Outcome.world {α : Type} : Outcome α → World
  | .ret _ w => w
  | .halt w => w

/-- The value returned, when the code ran to its end. -/
def Outcome.value {α : Type} : Outcome α → Option α
  | .ret a _ => some a
  | .halt _ => none

/-- Code that runs on the world. -/
def Prog (α : Type) : Type := World → Outcome α

/-- Sequencing: what follows a halted piece of code never runs. -/
def Prog.bind {α β : Type} (p : Prog α) (f : α → Prog β) : Prog β :=
  fun w =>
    match p w with
    | .ret a w1 => f a w1
    | .halt w1 => .halt w1

instance : Monad Prog where
  pure a := fun w => .ret a w
  bind := Prog.bind

/-- Append one event to the trace. -/
def emit (e : Ev) : Prog Unit :=
  fun w => .ret () { w with trace := w.trace ++ [e] }

/-- A kernel call: it is recorded, and the error code it reports is the next one
the environment supplies. -/
def osCall (e : Ev) : Prog Nat :=
  fun w => .ret (w.os_err w.calls) { w with calls := w.calls + 1, trace := w.trace ++ [e] }

/-- The busy loop `while(os_err != OS_ERR_NONE){}`. -/
def spin (os_err : Nat) : Prog Unit :=
  fun w => if os_err ≠ OS_ERR_NONE then .halt w else .ret () w

/-- `OSMutexPend(&timeMutexKey, ...)`: on success the caller holds the mutex. -/
def OSMutexPend : Prog Nat :=
  fun w =>
    match osCall Ev.OSMutexPend w with
    | .ret e w1 => .ret e (if e = OS_ERR_NONE then { w1 with mutexHeld := true } else w1)
    | .halt w1 => .halt w1

/-- `OSMutexPost(&timeMutexKey, ...)`: on success the mutex is free again. -/
def OSMutexPost : Prog Nat :=
  fun w =>
    match osCall Ev.OSMutexPost w with
    | .ret e w1 => .ret e (if e = OS_ERR_NONE then { w1 with mutexHeld := false } else w1)
    | .halt w1 => .halt w1

/-- Read of the static `timeOfDay`. -/
def readTime : Prog TIME_T :=
  fun w => .ret w.timeOfDay { w with trace := w.trace ++ [Ev.readTimeOfDay] }

/-- Write of the static `timeOfDay`. -/
def writeTime (t : TIME_T) : Prog Unit :=
  fun w => .ret () { w with timeOfDay := t, trace := w.trace ++ [Ev.writeTimeOfDay] }

/-! ## `Time.c` -/

/-- `TimeInit` (`Time.c` lines 37-75). -/
def TimeInit : Prog Unit := do
  let e1 ← osCall (Ev.OSSemCreate Sem.timeChgFlag)
  spin e1
  let e2 ← osCall (Ev.OSSemCreate Sem.timeSecFlag)
  spin e2
  let e3 ← osCall Ev.OSMutexCreate
  spin e3
  writeTime { hr := 12, min := 0, sec := 0 }
  emit Ev.rtcIrqSetup
  let e4 ← osCall Ev.OSTaskCreate
  spin e4

/-- The update of `timeOfDay` in one iteration of `timeTask` (`Time.c` lines 126-140). -/
def advance (t : TIME_T) : TIME_T :=
  if t.sec > 58 then
    if t.min > 58 then
      if t.hr > 22 then
        { hr := 0, min := 0, sec := 0 }
      else
        { hr := (t.hr + 1) % 256, min := 0, sec := 0 }
    else
      { hr := t.hr, min := (t.min + 1) % 256, sec := 0 }
  else
    { hr := t.hr, min := t.min, sec := (t.sec + 1) % 256 }

/-- One iteration of the loop of `timeTask` (`Time.c` lines 118-146), from the
moment the tick semaphore is pended on. -/
def timeTask_iter : Prog Unit := do
  emit (Ev.DB 3 false)
  let e1 ← osCall (Ev.OSSemPend Sem.timeSecFlag)
  spin e1
  let e2 ← OSMutexPend
  spin e2
  emit (Ev.DB 3 true)
  let t ← readTime
  writeTime (advance t)
  let e3 ← osCall (Ev.OSSemPost Sem.timeChgFlag)
  spin e3
  let e4 ← OSMutexPost
  spin e4

/-- `TimeSet` (`Time.c` lines 163-173). -/
def TimeSet (ltime : TIME_T) : Prog Unit := do
  let e1 ← OSMutexPend
  spin e1
  writeTime ltime
  let e2 ← OSMutexPost
  spin e2

/-- `TimeGet` (`Time.c` lines 187-197); the value returned is what is stored in `*ltime`. -/
def TimeGet : Prog TIME_T := do
  let e1 ← OSMutexPend
  spin e1
  let t ← readTime
  let e2 ← OSMutexPost
  spin e2
  pure t

/-- `TimePend` (`Time.c` lines 213-219); the value returned is what is stored in `*ltime`. -/
def TimePend : Prog TIME_T := do
  let e1 ← osCall (Ev.OSSemPend Sem.timeChgFlag)
  spin e1
  let t ← readTime
  pure t

/-- `RTC_Seconds_IRQHandler` (`Time.c` lines 89-96): the post of the tick semaphore
and the loop on its error code. -/
def RTC_Seconds_IRQHandler : Prog Unit := do
  let e1 ← osCall (Ev.OSSemPost Sem.timeSecFlag)
  spin e1

/-! ## `UITask` (`Lab2.c` lines 146-324) -/

/-- The local variables of `UITask`. -/
structure UILocals where
  ui_state : UISTATE
  set_state : SETSTATE
  user_input : Nat
  buffertime : TIME_T
  init_check : Nat
deriving DecidableEq, Repr

/-- The locals as declared at `Lab2.c` lines 150-154; `user_input` and `buffertime`
are declared without an initial value, so what they hold is a parameter. -/
def UITask_locals (user_input : Nat) (buffertime : TIME_T) : UILocals :=
  { ui_state := UISTATE.TIMESET, set_state := SETSTATE.HOURTENS, user_input := user_input,
    buffertime := buffertime, init_check := 1 }

/-- First part of a pass (`Lab2.c` lines 158-168): the first pass takes a snapshot
and shows it, every later pass waits for a key; `key` is what `KeyPend` returns
when it is called. -/
def UITask_input (key : Nat) (l : UILocals) : Prog UILocals :=
  if l.init_check ≠ 0 then do
    let l1 := { l with init_check := 0 }
    let t ← TimeGet
    let l2 := { l1 with buffertime := t }
    emit (Ev.LcdDispTime ROW2 COLUMN9 Layer.TIMESETLAYER l2.buffertime.hr l2.buffertime.min
      l2.buffertime.sec)
    emit (Ev.LcdCursor ROW2 COLUMN9 Layer.TIMESETLAYER CURSORON BLINKON)
    pure l2
  else do
    emit (Ev.DB 0 false)
    let e ← osCall Ev.KeyPend
    let l1 := { l with user_input := key % 256 }
    spin e
    emit (Ev.DB 0 true)
    pure l1

/-- The switch on `user_input` at the head of the `TIMESET` case (`Lab2.c` lines 172-184). -/
def UITask_control (l : UILocals) : Prog UILocals :=
  if l.user_input = A_PRESS then do
    let l1 := { l with ui_state := UISTATE.TIME }
    TimeSet l1.buffertime
    emit (Ev.LcdHideLayer Layer.TIMESETLAYER)
    pure l1
  else if l.user_input = C_PRESS then do
    let l1 := { l with ui_state := UISTATE.TIME }
    emit (Ev.LcdHideLayer Layer.TIMESETLAYER)
    pure l1
  else
    pure l

/-- The switch on `set_state` of the `TIMESET` case (`Lab2.c` lines 185-303). -/
def UITask_digit (l : UILocals) : Prog UILocals :=
  match l.set_state with
  | SETSTATE.HOURTENS =>
    if l.user_input ∈ [0x30, 0x31, 0x32] then do
      let l1 := { l with user_input := ((l.user_input - 0x30) * 10) % 256 }
      let l2 := { l1 with buffertime :=
        { l1.buffertime with hr := ((l1.buffertime.hr % 10) + l1.user_input) % 256 } }
      let l3 := { l2 with set_state := SETSTATE.HOURONES }
      emit (Ev.LcdCursor ROW2 COLUMN10 Layer.TIMESETLAYER CURSORON BLINKON)
      pure l3
    else
      pure l
  | SETSTATE.HOURONES =>
    if l.user_input ∈ [0x30, 0x31, 0x32, 0x33] then do
      let l1 := { l with user_input := (l.user_input - 0x30) % 256 }
      let l2 := { l1 with buffertime :=
        { l1.buffertime with
          hr := ((l1.buffertime.hr - (l1.buffertime.hr % 10)) + l1.user_input) % 256 } }
      let l3 := { l2 with set_state := SETSTATE.MINUTETENS }
      emit (Ev.LcdCursor ROW2 COLUMN12 Layer.TIMESETLAYER CURSORON BLINKON)
      pure l3
    else if l.user_input ∈ [0x34, 0x35, 0x36, 0x37, 0x38, 0x39] then
      if l.buffertime.hr / 10 ≠ 2 then do
        let l1 := { l with user_input := (l.user_input - 0x30) % 256 }
        let l2 := { l1 with buffertime :=
          { l1.buffertime with
            hr := ((l1.buffertime.hr - (l1.buffertime.hr % 10)) + l1.user_input) % 256 } }
        let l3 := { l2 with set_state := SETSTATE.MINUTETENS }
        emit (Ev.LcdCursor ROW2 COLUMN12 Layer.TIMESETLAYER CURSORON BLINKON)
        pure l3
      else
        pure l
    else
      pure l
  | SETSTATE.MINUTETENS =>
    if l.user_input ∈ [0x30, 0x31, 0x32, 0x33, 0x34, 0x35] then do
      let l1 := { l with user_input := ((l.user_input - 0x30) * 10) % 256 }
      let l2 := { l1 with buffertime :=
        { l1.buffertime with min := ((l1.buffertime.min % 10) + l1.user_input) % 256 } }
      let l3 := { l2 with set_state := SETSTATE.MINUTEONES }
      emit (Ev.LcdCursor ROW2 COLUMN13 Layer.TIMESETLAYER CURSORON BLINKON)
      pure l3
    else
      pure l
  | SETSTATE.MINUTEONES =>
    if l.user_input ∈ [0x30, 0x31, 0x32, 0x33, 0x34, 0x35, 0x36, 0x37, 0x38, 0x39] then do
      let l1 := { l with user_input := (l.user_input - 0x30) % 256 }
      let l2 := { l1 with buffertime :=
        { l1.buffertime with
          min := ((l1.buffertime.min - (l1.buffertime.min % 10)) + l1.user_input) % 256 } }
      let l3 := { l2 with set_state := SETSTATE.SECONDTENS }
      emit (Ev.LcdCursor ROW2 COLUMN15 Layer.TIMESETLAYER CURSORON BLINKON)
      pure l3
    else
      pure l
  | SETSTATE.SECONDTENS =>
    if l.user_input ∈ [0x30, 0x31, 0x32, 0x33, 0x34, 0x35] then do
      let l1 := { l with user_input := ((l.user_input - 0x30) * 10) % 256 }
      let l2 := { l1 with buffertime :=
        { l1.buffertime with sec := ((l1.buffertime.sec % 10) + l1.user_input) % 256 } }
      let l3 := { l2 with set_state := SETSTATE.SECONDONES }
      emit (Ev.LcdCursor ROW2 COLUMN16 Layer.TIMESETLAYER CURSORON BLINKON)
      pure l3
    else
      pure l
  | SETSTATE.SECONDONES =>
    if l.user_input ∈ [0x30, 0x31, 0x32, 0x33, 0x34, 0x35, 0x36, 0x37, 0x38, 0x39] then do
      let l1 := { l with user_input := (l.user_input - 0x30) % 256 }
      let l2 := { l1 with buffertime :=
        { l1.buffertime with
          sec := ((l1.buffertime.sec - (l1.buffertime.sec % 10)) + l1.user_input) % 256 } }
      pure l2
    else
      pure l

/-- The `TIME` case of the switch on `ui_state` (`Lab2.c` lines 306-319). -/
def UITask_time (l : UILocals) : Prog UILocals :=
  if l.user_input = 0x23 then do
    let t ← TimeGet
    let l1 := { l with buffertime := t }
    emit (Ev.LcdShowLayer Layer.TIMESETLAYER)
    emit (Ev.LcdDispTime ROW2 COLUMN9 Layer.TIMESETLAYER l1.buffertime.hr l1.buffertime.min
      l1.buffertime.sec)
    let l2 := { l1 with ui_state := UISTATE.TIMESET }
    let l3 := { l2 with set_state := SETSTATE.HOURTENS }
    emit (Ev.LcdCursor ROW2 COLUMN9 Layer.TIMESETLAYER CURSORON BLINKON)
    pure l3
  else
    pure l

/-- The switch on `ui_state` (`Lab2.c` lines 170-322).  The state tested is the one
held when the switch is entered, so a pass that leaves `TIMESET` still runs the
switch on `set_state` and the `LcdDispTime` that follows it. -/
def UITask_switch (l : UILocals) : Prog UILocals :=
  match l.ui_state with
  | UISTATE.TIMESET => do
    let l1 ← UITask_control l
    let l2 ← UITask_digit l1
    emit (Ev.LcdDispTime ROW2 COLUMN9 Layer.TIMESETLAYER l2.buffertime.hr l2.buffertime.min
      l2.buffertime.sec)
    pure l2
  | UISTATE.TIME => UITask_time l

/-- One pass of the loop of `UITask` (`Lab2.c` lines 156-323). -/
def UITask_body (key : Nat) (l : UILocals) : Prog UILocals := do
  let l1 ← UITask_input key l
  UITask_switch l1

/-- One iteration of the loop of `TimeDispTask` (`Lab2.c` lines 345-351). -/
def TimeDispTask_iter : Prog TIME_T := do
  emit (Ev.DB 2 false)
  let ltime ← TimePend
  emit (Ev.DB 2 true)
  emit (Ev.LcdDispTime ROW1 COLUMN9 Layer.TIMEDISPLAYER ltime.hr ltime.min ltime.sec)
  pure ltime

/-! ## Runs of the system -/

/-- What drives the system: a tick (one iteration of `timeTask`) or one pass of
`UITask`, in which `KeyPend`, when it is called, returns `k`. -/
inductive Event where
  | tick
  | pass (k : Nat)
deriving DecidableEq, Repr

/-- One event applied to the locals of `UITask` and the world. -/
def step (e : Event) (l : UILocals) : Prog UILocals :=
  match e with
  | Event.tick => do
    timeTask_iter
    pure l
  | Event.pass k => UITask_body k l

/-- A finite sequence of events, in order. -/
def run : List Event → UILocals → Prog UILocals
  | [], l => pure l
  | e :: es, l => do
    let l1 ← step e l
    run es l1

/-- The memory at reset: the static `timeOfDay` is zero, nobody holds the mutex,
no call has been made, and the kernel reports the error codes `os_err`. -/
def World.reset (os_err : Nat → Nat) : World :=
  { timeOfDay := { hr := 0, min := 0, sec := 0 }, mutexHeld := false, os_err := os_err,
    calls := 0, trace := [] }

/-- A kernel that never reports an error. -/
def noErr : Nat → Nat := fun _ => OS_ERR_NONE

/-- The system from reset: `TimeInit`, then the events, `UITask` starting from its
declared locals. -/
def boot (user_input : Nat) (buffertime : TIME_T) (es : List Event) : Prog UILocals := do
  TimeInit
  run es (UITask_locals user_input buffertime)

/-! ## Notions of the specification -/

/-- A time of day is in range when hr <= 23, min <= 59 and sec <= 59. -/
def TIME_T.valid (t : TIME_T) : Prop :=
  t.hr ≤ 23 ∧ t.min ≤ 59 ∧ t.sec ≤ 59

instance (t : TIME_T) : Decidable t.valid := by
  unfold TIME_T.valid
  infer_instance

/-- The number of seconds since midnight that a time of day stands for. -/
def secondsOf (t : TIME_T) : Nat :=
  t.hr * 3600 + t.min * 60 + t.sec

/-- The kernel reports no error at any call. -/
def World.noError (w : World) : Prop :=
  ∀ i, w.os_err i = OS_ERR_NONE

/-- The acceptance table of the specification (section 4.3): hour-tens accepts 0-2;
hour-ones accepts 0-3 always and 4-9 only when the tens digit of the hour in the
buffer, `b.hr / 10`, is not 2; minute-tens and second-tens accept 0-5; minute-ones
and second-ones accept 0-9. -/
def tableAllows (s : SETSTATE) (b : TIME_T) (d : Nat) : Bool :=
  match s with
  | SETSTATE.HOURTENS => decide (d ≤ 2)
  | SETSTATE.HOURONES => decide (d ≤ 3) || (decide (4 ≤ d) && decide (d ≤ 9) && decide (b.hr / 10 ≠ 2))
  | SETSTATE.MINUTETENS => decide (d ≤ 5)
  | SETSTATE.MINUTEONES => decide (d ≤ 9)
  | SETSTATE.SECONDTENS => decide (d ≤ 5)
  | SETSTATE.SECONDONES => decide (d ≤ 9)

/-- The order of the cursor slots (section 4.3): hour-tens, hour-ones, minute-tens,
minute-ones, second-tens, second-ones; second-ones is the last slot and has no next one. -/
def nextSlot : SETSTATE → SETSTATE
  | SETSTATE.HOURTENS => SETSTATE.HOURONES
  | SETSTATE.HOURONES => SETSTATE.MINUTETENS
  | SETSTATE.MINUTETENS => SETSTATE.MINUTEONES
  | SETSTATE.MINUTEONES => SETSTATE.SECONDTENS
  | SETSTATE.SECONDTENS => SETSTATE.SECONDONES
  | SETSTATE.SECONDONES => SETSTATE.SECONDONES

/-- Writing a tens digit, in the words of the specification: `(field % 10) + digit*10`. -/
def writeTens (field d : Nat) : Nat :=
  (field % 10) + d * 10

/-- Writing a ones digit, in the words of the specification: `(field - field%10) + digit`. -/
def writeOnes (field d : Nat) : Nat :=
  (field - field % 10) + d

/-- The buffer after digit `d` is written at slot `s`, in the words of the specification. -/
def writeDigit (s : SETSTATE) (b : TIME_T) (d : Nat) : TIME_T :=
  match s with
  | SETSTATE.HOURTENS => { hr := writeTens b.hr d, min := b.min, sec := b.sec }
  | SETSTATE.HOURONES => { hr := writeOnes b.hr d, min := b.min, sec := b.sec }
  | SETSTATE.MINUTETENS => { hr := b.hr, min := writeTens b.min d, sec := b.sec }
  | SETSTATE.MINUTEONES => { hr := b.hr, min := writeOnes b.min d, sec := b.sec }
  | SETSTATE.SECONDTENS => { hr := b.hr, min := b.min, sec := writeTens b.sec d }
  | SETSTATE.SECONDONES => { hr := b.hr, min := b.min, sec := writeOnes b.sec d }

/-- The decimal digit of the buffer that a slot addresses. -/
def digitAt (s : SETSTATE) (b : TIME_T) : Nat :=
  match s with
  | SETSTATE.HOURTENS => b.hr / 10 % 10
  | SETSTATE.HOURONES => b.hr % 10
  | SETSTATE.MINUTETENS => b.min / 10 % 10
  | SETSTATE.MINUTEONES => b.min % 10
  | SETSTATE.SECONDTENS => b.sec / 10 % 10
  | SETSTATE.SECONDONES => b.sec % 10

/-- The two fields of the buffer that a slot does not address are the same in `b` and `c`. -/
def otherFieldsSame (s : SETSTATE) (b c : TIME_T) : Prop :=
  match s with
  | SETSTATE.HOURTENS => c.min = b.min ∧ c.sec = b.sec
  | SETSTATE.HOURONES => c.min = b.min ∧ c.sec = b.sec
  | SETSTATE.MINUTETENS => c.hr = b.hr ∧ c.sec = b.sec
  | SETSTATE.MINUTEONES => c.hr = b.hr ∧ c.sec = b.sec
  | SETSTATE.SECONDTENS => c.hr = b.hr ∧ c.min = b.min
  | SETSTATE.SECONDONES => c.hr = b.hr ∧ c.min = b.min

/-- The buffer of `writeDigit` with the written field reduced modulo 256, as an `INT8U`
holds it. -/
def writeDigit256 (s : SETSTATE) (b : TIME_T) (d : Nat) : TIME_T :=
  match s with
  | SETSTATE.HOURTENS => { hr := writeTens b.hr d % 256, min := b.min, sec := b.sec }
  | SETSTATE.HOURONES => { hr := writeOnes b.hr d % 256, min := b.min, sec := b.sec }
  | SETSTATE.MINUTETENS => { hr := b.hr, min := writeTens b.min d % 256, sec := b.sec }
  | SETSTATE.MINUTEONES => { hr := b.hr, min := writeOnes b.min d % 256, sec := b.sec }
  | SETSTATE.SECONDTENS => { hr := b.hr, min := b.min, sec := writeTens b.sec d % 256 }
  | SETSTATE.SECONDONES => { hr := b.hr, min := b.min, sec := writeOnes b.sec d % 256 }

/-- The value of the digit as it is added to the field: ten times the digit at a tens
slot, the digit itself at a ones slot. -/
def digitValue (s : SETSTATE) (d : Nat) : Nat :=
  match s with
  | SETSTATE.HOURTENS => d * 10
  | SETSTATE.HOURONES => d
  | SETSTATE.MINUTETENS => d * 10
  | SETSTATE.MINUTEONES => d
  | SETSTATE.SECONDTENS => d * 10
  | SETSTATE.SECONDONES => d

/-- The edit step of the specification on the locals of `UITask`, for the key of digit
`d`: an allowed digit is written and the cursor moves on, a digit that is not allowed
changes neither buffer nor cursor. -/
def editStep (l : UILocals) (d : Nat) : UILocals :=
  if tableAllows l.set_state l.buffertime d = true then
    { l with user_input := digitValue l.set_state d,
             buffertime := writeDigit256 l.set_state l.buffertime d,
             set_state := nextSlot l.set_state }
  else
    { l with user_input := 0x30 + d }

/-- The display calls of a pass in `TIMESET` on digit `d`: the cursor call of an
accepted digit (none at second-ones), then the rendering of the buffer. -/
def editCalls (l : UILocals) (d : Nat) : List Ev :=
  (if tableAllows l.set_state l.buffertime d = true then
    match l.set_state with
    | SETSTATE.HOURTENS => [Ev.LcdCursor ROW2 COLUMN10 Layer.TIMESETLAYER CURSORON BLINKON]
    | SETSTATE.HOURONES => [Ev.LcdCursor ROW2 COLUMN12 Layer.TIMESETLAYER CURSORON BLINKON]
    | SETSTATE.MINUTETENS => [Ev.LcdCursor ROW2 COLUMN13 Layer.TIMESETLAYER CURSORON BLINKON]
    | SETSTATE.MINUTEONES => [Ev.LcdCursor ROW2 COLUMN15 Layer.TIMESETLAYER CURSORON BLINKON]
    | SETSTATE.SECONDTENS => [Ev.LcdCursor ROW2 COLUMN16 Layer.TIMESETLAYER CURSORON BLINKON]
    | SETSTATE.SECONDONES => []
  else []) ++
  [Ev.LcdDispTime ROW2 COLUMN9 Layer.TIMESETLAYER (editStep l d).buffertime.hr
    (editStep l d).buffertime.min (editStep l d).buffertime.sec]

/-- Locals of `UITask` in the edit state `TIMESET` with the cursor at slot `s` and the
buffer `b`, after the first pass. -/
def editingAt (s : SETSTATE) (b : TIME_T) : UILocals :=
  { ui_state := UISTATE.TIMESET, set_state := s, user_input := 0, buffertime := b,
    init_check := 0 }

/-- Locals of `UITask` in the display state `TIME`, with the cursor `s` and the buffer
`b` that an earlier edit session left. -/
def displayingWith (s : SETSTATE) (b : TIME_T) : UILocals :=
  { ui_state := UISTATE.TIME, set_state := s, user_input := 0, buffertime := b,
    init_check := 0 }

/-- The display calls: `LcdDispTime`, `LcdCursor`, `LcdShowLayer` and `LcdHideLayer`. -/
def Ev.isDisplay : Ev → Bool
  | Ev.LcdDispTime _ _ _ _ _ _ => true
  | Ev.LcdCursor _ _ _ _ _ => true
  | Ev.LcdShowLayer _ => true
  | Ev.LcdHideLayer _ => true
  | _ => false

/-- Every read and write of `timeOfDay` in a trace happens while the mutex is held:
the trace is followed from a state in which the mutex is held or not (`held`), a pend
on the mutex acquires it and a post releases it. -/
def guardedFrom (held : Bool) : List Ev → Bool
  | [] => true
  | Ev.OSMutexPend :: es => guardedFrom true es
  | Ev.OSMutexPost :: es => guardedFrom false es
  | Ev.readTimeOfDay :: es => held && guardedFrom held es
  | Ev.writeTimeOfDay :: es => held && guardedFrom held es
  | _ :: es => guardedFrom held es

/-- No post of `timeChgFlag` in a trace happens while the mutex is held, the trace
being followed as in `guardedFrom`. -/
def postsOutsideLock (held : Bool) : List Ev → Bool
  | [] => true
  | Ev.OSMutexPend :: es => postsOutsideLock true es
  | Ev.OSMutexPost :: es => postsOutsideLock false es
  | Ev.OSSemPost Sem.timeChgFlag :: es => !held && postsOutsideLock held es
  | _ :: es => postsOutsideLock held es

/-- Every post of `timeChgFlag` in a trace happens while the mutex is held. -/
def postsInsideLock (held : Bool) : List Ev → Bool
  | [] => true
  | Ev.OSMutexPend :: es => postsInsideLock true es
  | Ev.OSMutexPost :: es => postsInsideLock false es
  | Ev.OSSemPost Sem.timeChgFlag :: es => held && postsInsideLock held es
  | _ :: es => postsInsideLock held es

/-- A kernel that reports the error code 1 at its n-th call and no error otherwise. -/
def errAt (n : Nat) : Nat → Nat :=
  fun i => if i = n then 1 else OS_ERR_NONE

/-- The bounds of the edit buffer: min <= 59, sec <= 59, hr <= 29, and hr <= 23 when
the cursor is at a slot other than hour-ones. -/
def editInv (l : UILocals) : Prop :=
  l.buffertime.min ≤ 59 ∧ l.buffertime.sec ≤ 59 ∧ l.buffertime.hr ≤ 29 ∧
    (l.set_state ≠ SETSTATE.HOURONES → l.buffertime.hr ≤ 23)

/-- The code `p` leaves `timeOfDay` as it was, whether it runs to its end or halts. -/
def keepsTime {α : Type} (p : Prog α) : Prop :=
  ∀ w, (p w).world.timeOfDay = w.timeOfDay

/-- The update of `timeOfDay` of `timeTask` (`Time.c` lines 126-140) with the
increments computed over the natural numbers, not reduced to a byte. -/
def advanceNat (t : TIME_T) : TIME_T :=
  if t.sec > 58 then
    if t.min > 58 then
      if t.hr > 22 then
        { hr := 0, min := 0, sec := 0 }
      else
        { hr := t.hr + 1, min := 0, sec := 0 }
    else
      { hr := t.hr, min := t.min + 1, sec := 0 }
  else
    { hr := t.hr, min := t.min, sec := t.sec + 1 }

/-- The effect of one kernel call on the count of the semaphore `s`.  The kernel is
uC/OS-III, whose code is not part of the repository; its semaphore is the counter that
`Time.c` uses it as: `OSSemCreate` is given the count 0 (lines 40, 43), `OSSemPost`
adds one and `OSSemPend` takes one, both returning the count, which the code discards
with `(void)`.  Nothing bounds the count. -/
def semStep (s : Sem) (n : Nat) (e : Ev) : Nat :=
  match e with
  | Ev.OSSemCreate s1 => if s1 = s then 0 else n
  | Ev.OSSemPost s1 => if s1 = s then n + 1 else n
  | Ev.OSSemPend s1 => if s1 = s then n - 1 else n
  | _ => n

/-- The count of the semaphore `s` after the kernel calls of a trace, none of which
reported an error: the number of posts not yet taken by a pend. -/
def semCount (s : Sem) (tr : List Ev) : Nat :=
  tr.foldl (semStep s) 0

/-- A call of `TimePend` with the blocking of its pend on `timeChgFlag` made explicit:
when the count is zero the pend blocks and the call does not return before a further
post (`none`); otherwise it runs as `TimePend` does. -/
def TimePend_count (w : World) : Option (Outcome TIME_T) :=
  if semCount Sem.timeChgFlag w.trace = 0 then none else some (TimePend w)

/-- One tick of the clock: the interrupt handler posts `timeSecFlag`, then the
iteration of `timeTask` that this post wakes runs. -/
def tickOnce : Prog Unit := do
  RTC_Seconds_IRQHandler
  timeTask_iter

/-- The memory after `TimeInit` from reset and two ticks, no `TimePend` having been
called and the kernel reporting no error. -/
def afterTwoTicks : World :=
  (Prog.bind TimeInit (fun _ => Prog.bind tickOnce (fun _ => tickOnce)) (World.reset noErr)).world

/-! ## Shared lemmas -/

/-- One update of `timeTask` keeps a time of day in range. -/
theorem advance_valid (t : TIME_T) (h : t.valid) : (advance t).valid := by
  obtain ⟨h1, h2, h3⟩ := h
  unfold advance TIME_T.valid
  split_ifs <;> simp <;> omega

/-- `TimeSet` when the kernel reports no error. -/
theorem TimeSet_ok (v : TIME_T) (w : World) (h : w.noError) :
    TimeSet v w = Outcome.ret ()
      { w with timeOfDay := v, mutexHeld := false, calls := w.calls + 2,
               trace := w.trace ++ [Ev.OSMutexPend, Ev.writeTimeOfDay, Ev.OSMutexPost] } := by
  simp [TimeSet, OSMutexPend, OSMutexPost, osCall, spin, writeTime, bind, Prog.bind, h _]

/-- `TimeGet` when the kernel reports no error. -/
theorem TimeGet_ok (w : World) (h : w.noError) :
    TimeGet w = Outcome.ret w.timeOfDay
      { w with mutexHeld := false, calls := w.calls + 2,
               trace := w.trace ++ [Ev.OSMutexPend, Ev.readTimeOfDay, Ev.OSMutexPost] } := by
  simp [TimeGet, OSMutexPend, OSMutexPost, osCall, spin, readTime, bind, Prog.bind, pure, h _]

/-- One iteration of `timeTask` when the kernel reports no error: the time of day
becomes `advance` of what it was. -/
theorem timeTask_iter_ok (w : World) (h : w.noError) :
    timeTask_iter w = Outcome.ret ()
      { w with timeOfDay := advance w.timeOfDay, mutexHeld := false, calls := w.calls + 4,
               trace := w.trace ++ [Ev.DB 3 false, Ev.OSSemPend Sem.timeSecFlag, Ev.OSMutexPend,
                 Ev.DB 3 true, Ev.readTimeOfDay, Ev.writeTimeOfDay,
                 Ev.OSSemPost Sem.timeChgFlag, Ev.OSMutexPost] } := by
  simp [timeTask_iter, OSMutexPend, OSMutexPost, osCall, spin, readTime, writeTime, emit, bind,
    Prog.bind, h _]

/-- A pass in `TIMESET` on a digit key does what `editStep` says, and makes the calls
of `editCalls` after those of `KeyPend`. -/
theorem UITask_body_digit (l : UILocals) (w : World) (d : Nat)
    (hs : l.ui_state = UISTATE.TIMESET) (hi : l.init_check = 0) (hd : d ≤ 9)
    (he : w.os_err w.calls = OS_ERR_NONE) :
    UITask_body (0x30 + d) l w = Outcome.ret (editStep l d)
      { w with calls := w.calls + 1,
               trace := w.trace ++ ([Ev.DB 0 false, Ev.KeyPend, Ev.DB 0 true] ++ editCalls l d) } := by
  obtain ⟨us, ss, ui, ⟨bh, bm, bs⟩, ic⟩ := l
  simp only at hs hi
  subst hs hi
  by_cases hb : bh / 10 = 2 <;> cases ss <;> interval_cases d <;>
    simp [hb, UITask_body, UITask_input, UITask_switch, UITask_control, UITask_digit, osCall, spin,
      emit, bind, Prog.bind, pure, he, A_PRESS, C_PRESS, tableAllows, editStep, editCalls,
      writeDigit256, writeDigit, writeTens, writeOnes, nextSlot, digitValue]

/-- An edit step stays in the same `ui_state`. -/
theorem editStep_ui_state (l : UILocals) (d : Nat) : (editStep l d).ui_state = l.ui_state := by
  unfold editStep
  split <;> rfl

/-- An edit step leaves `init_check` alone. -/
theorem editStep_init_check (l : UILocals) (d : Nat) :
    (editStep l d).init_check = l.init_check := by
  unfold editStep
  split <;> rfl

/-- The display calls of an edit step touch neither the mutex nor `timeOfDay`. -/
theorem editCalls_no_time_access (l : UILocals) (d : Nat) :
    Ev.OSMutexPend ∉ editCalls l d ∧ Ev.writeTimeOfDay ∉ editCalls l d := by
  unfold editCalls
  split <;> cases l.set_state <;> simp

/-- A run of two sequences of events is the run of the second after the first. -/
theorem run_append (xs ys : List Event) (l : UILocals) (w : World) :
    run (xs ++ ys) l w =
      match run xs l w with
      | Outcome.ret l1 w1 => run ys l1 w1
      | Outcome.halt w1 => Outcome.halt w1 := by
  induction xs generalizing l w with
  | nil => simp [run, pure]
  | cons e es ih =>
    simp only [List.cons_append, run, bind, Prog.bind]
    cases step e l w with
    | ret l1 w1 => simpa using ih l1 w1
    | halt w1 => rfl

/-- Digit keys in `TIMESET` stay in `TIMESET` and leave the authoritative time alone. -/
theorem run_digits (ds : List Nat) (l : UILocals) (w : World)
    (hs : l.ui_state = UISTATE.TIMESET) (hi : l.init_check = 0)
    (hds : ∀ k ∈ ds, 0x30 ≤ k ∧ k ≤ 0x39) (h : w.noError) :
    ∃ l1 w1 added, run (ds.map Event.pass) l w = Outcome.ret l1 w1 ∧
      l1.ui_state = UISTATE.TIMESET ∧ l1.init_check = 0 ∧ w1.timeOfDay = w.timeOfDay ∧
      w1.noError ∧ w1.trace = w.trace ++ added ∧
      Ev.OSMutexPend ∉ added ∧ Ev.writeTimeOfDay ∉ added := by
  induction ds generalizing l w with
  | nil => exact ⟨l, w, [], by simp [run, pure], hs, hi, rfl, h, by simp, by simp, by simp⟩
  | cons k ks ih =>
    have hk := hds k (List.mem_cons_self k ks)
    have hkd : k = 0x30 + (k - 0x30) := by omega
    have hstep := UITask_body_digit l w (k - 0x30) hs hi (by omega) (h _)
    rw [← hkd] at hstep
    obtain ⟨l1, w1, added, hrun, h1, h2, h3, h4, h5, h6, h7⟩ :=
      ih (editStep l (k - 0x30))
        { w with calls := w.calls + 1,
                 trace := w.trace ++ ([Ev.DB 0 false, Ev.KeyPend, Ev.DB 0 true] ++
                   editCalls l (k - 0x30)) }
        (by rw [editStep_ui_state]; exact hs) (by rw [editStep_init_check]; exact hi)
        (fun j hj => hds j (List.mem_cons_of_mem k hj)) (fun i => h i)
    refine ⟨l1, w1, ([Ev.DB 0 false, Ev.KeyPend, Ev.DB 0 true] ++ editCalls l (k - 0x30)) ++ added,
      ?_, h1, h2, h3, h4, ?_, ?_, ?_⟩
    · simp only [List.map_cons, run, step, bind, Prog.bind, hstep]
      exact hrun
    · rw [h5]
      simp
    · have := (editCalls_no_time_access l (k - 0x30)).1
      simp [this, h6]
    · have := (editCalls_no_time_access l (k - 0x30)).2
      simp [this, h7]

/-- The pass in `TIMESET` that receives CANCEL. -/
theorem UITask_body_cancel (l : UILocals) (w : World)
    (hs : l.ui_state = UISTATE.TIMESET) (hi : l.init_check = 0)
    (he : w.os_err w.calls = OS_ERR_NONE) :
    UITask_body C_PRESS l w = Outcome.ret { l with ui_state := UISTATE.TIME, user_input := C_PRESS }
      { w with calls := w.calls + 1,
               trace := w.trace ++ [Ev.DB 0 false, Ev.KeyPend, Ev.DB 0 true,
                 Ev.LcdHideLayer Layer.TIMESETLAYER,
                 Ev.LcdDispTime ROW2 COLUMN9 Layer.TIMESETLAYER l.buffertime.hr l.buffertime.min
                   l.buffertime.sec] } := by
  obtain ⟨us, ss, ui, bt, ic⟩ := l
  simp only at hs hi
  subst hs hi
  cases ss <;>
    simp [UITask_body, UITask_input, UITask_switch, UITask_control, UITask_digit, osCall, spin,
      emit, bind, Prog.bind, pure, he, A_PRESS, C_PRESS]

/-- The pass in `TIMESET` that receives CONFIRM, when the kernel reports no error. -/
theorem UITask_body_confirm (l : UILocals) (w : World)
    (hs : l.ui_state = UISTATE.TIMESET) (hi : l.init_check = 0) (h : w.noError) :
    UITask_body A_PRESS l w = Outcome.ret { l with ui_state := UISTATE.TIME, user_input := A_PRESS }
      { w with timeOfDay := l.buffertime, mutexHeld := false, calls := w.calls + 3,
               trace := w.trace ++ [Ev.DB 0 false, Ev.KeyPend, Ev.DB 0 true, Ev.OSMutexPend,
                 Ev.writeTimeOfDay, Ev.OSMutexPost, Ev.LcdHideLayer Layer.TIMESETLAYER,
                 Ev.LcdDispTime ROW2 COLUMN9 Layer.TIMESETLAYER l.buffertime.hr l.buffertime.min
                   l.buffertime.sec] } := by
  obtain ⟨us, ss, ui, bt, ic⟩ := l
  simp only at hs hi
  subst hs hi
  cases ss <;>
    simp [UITask_body, UITask_input, UITask_switch, UITask_control, UITask_digit, TimeSet,
      OSMutexPend, OSMutexPost, writeTime, osCall, spin, emit, bind, Prog.bind, pure, h _,
      A_PRESS, C_PRESS]

/-- The pass in `TIME` that receives the key #, when the kernel reports no error. -/
theorem UITask_body_enter (l : UILocals) (w : World)
    (hs : l.ui_state = UISTATE.TIME) (hi : l.init_check = 0) (h : w.noError) :
    UITask_body 0x23 l w = Outcome.ret
      { l with ui_state := UISTATE.TIMESET, set_state := SETSTATE.HOURTENS, user_input := 0x23,
               buffertime := w.timeOfDay }
      { w with mutexHeld := false, calls := w.calls + 3,
               trace := w.trace ++ [Ev.DB 0 false, Ev.KeyPend, Ev.DB 0 true, Ev.OSMutexPend,
                 Ev.readTimeOfDay, Ev.OSMutexPost, Ev.LcdShowLayer Layer.TIMESETLAYER,
                 Ev.LcdDispTime ROW2 COLUMN9 Layer.TIMESETLAYER w.timeOfDay.hr w.timeOfDay.min
                   w.timeOfDay.sec,
                 Ev.LcdCursor ROW2 COLUMN9 Layer.TIMESETLAYER CURSORON BLINKON] } := by
  obtain ⟨us, ss, ui, bt, ic⟩ := l
  simp only at hs hi
  subst hs hi
  simp [UITask_body, UITask_input, UITask_switch, UITask_time, TimeGet,
      OSMutexPend, OSMutexPost, readTime, osCall, spin, emit, bind, Prog.bind, pure, h _]

/-- The memory at reset with a kernel that never reports an error. -/
theorem reset_noError : (World.reset noErr).noError :=
  fun _ => rfl

/-- With fields below 100 the written field fits in a byte. -/
theorem writeDigit256_eq (s : SETSTATE) (b : TIME_T) (d : Nat) (hd : d ≤ 9)
    (hb : b.hr < 100 ∧ b.min < 100 ∧ b.sec < 100) : writeDigit256 s b d = writeDigit s b d := by
  obtain ⟨hb1, hb2, hb3⟩ := hb
  cases s <;> simp only [writeDigit256, writeDigit, writeTens, writeOnes, TIME_T.mk.injEq,
    and_true, true_and] <;> omega

/-- `TimeInit` when the kernel reports no error. -/
theorem TimeInit_ok (w : World) (h : w.noError) :
    TimeInit w = Outcome.ret ()
      { w with timeOfDay := { hr := 12, min := 0, sec := 0 }, calls := w.calls + 4,
               trace := w.trace ++ [Ev.OSSemCreate Sem.timeChgFlag,
                 Ev.OSSemCreate Sem.timeSecFlag, Ev.OSMutexCreate, Ev.writeTimeOfDay,
                 Ev.rtcIrqSetup, Ev.OSTaskCreate] } := by
  simp [TimeInit, osCall, spin, writeTime, emit, bind, Prog.bind, h _]

/-- The first pass of `UITask` from its declared locals, when the value that
`user_input` happens to hold is neither a control code nor a digit accepted at
hour-tens, and the kernel reports no error. -/
theorem UITask_body_first (key g : Nat) (bt : TIME_T) (w : World) (h : w.noError)
    (hg : g ≠ A_PRESS ∧ g ≠ C_PRESS ∧ g ≠ 0x30 ∧ g ≠ 0x31 ∧ g ≠ 0x32) :
    UITask_body key (UITask_locals g bt) w = Outcome.ret
      { ui_state := UISTATE.TIMESET, set_state := SETSTATE.HOURTENS, user_input := g,
        buffertime := w.timeOfDay, init_check := 0 }
      { w with mutexHeld := false, calls := w.calls + 2,
               trace := w.trace ++ [Ev.OSMutexPend, Ev.readTimeOfDay, Ev.OSMutexPost,
                 Ev.LcdDispTime ROW2 COLUMN9 Layer.TIMESETLAYER w.timeOfDay.hr w.timeOfDay.min
                   w.timeOfDay.sec,
                 Ev.LcdCursor ROW2 COLUMN9 Layer.TIMESETLAYER CURSORON BLINKON,
                 Ev.LcdDispTime ROW2 COLUMN9 Layer.TIMESETLAYER w.timeOfDay.hr w.timeOfDay.min
                   w.timeOfDay.sec] } := by
  obtain ⟨h1, h2, h3, h4, h5⟩ := hg
  simp [UITask_body, UITask_input, UITask_switch, UITask_control, UITask_digit, UITask_locals,
    TimeGet, OSMutexPend, OSMutexPost, readTime, osCall, spin, emit, bind, Prog.bind, pure, h _,
    h1, h2, h3, h4, h5]

/-- A pass in `TIMESET` on a key code that is neither a control code nor a digit only
stores the key code and renders the buffer. -/
theorem UITask_body_other (l : UILocals) (w : World) (k : Nat)
    (hs : l.ui_state = UISTATE.TIMESET) (hi : l.init_check = 0)
    (he : w.os_err w.calls = OS_ERR_NONE) (hk : k < 256)
    (hA : k ≠ A_PRESS) (hC : k ≠ C_PRESS) (hnd : k < 0x30 ∨ 0x39 < k) :
    UITask_body k l w = Outcome.ret { l with user_input := k }
      { w with calls := w.calls + 1,
               trace := w.trace ++ [Ev.DB 0 false, Ev.KeyPend, Ev.DB 0 true,
                 Ev.LcdDispTime ROW2 COLUMN9 Layer.TIMESETLAYER l.buffertime.hr l.buffertime.min
                   l.buffertime.sec] } := by
  obtain ⟨us, ss, ui, bt, ic⟩ := l
  simp only at hs hi
  subst hs hi
  have hm : k % 256 = k := Nat.mod_eq_of_lt hk
  have h0 : k ≠ 48 := by omega
  have h1 : k ≠ 49 := by omega
  have h2 : k ≠ 50 := by omega
  have h3 : k ≠ 51 := by omega
  have h4 : k ≠ 52 := by omega
  have h5 : k ≠ 53 := by omega
  have h6 : k ≠ 54 := by omega
  have h7 : k ≠ 55 := by omega
  have h8 : k ≠ 56 := by omega
  have h9 : k ≠ 57 := by omega
  simp only [A_PRESS] at hA
  simp only [C_PRESS] at hC
  cases ss <;>
    simp [UITask_body, UITask_input, UITask_switch, UITask_control, UITask_digit, osCall, spin,
      emit, bind, Prog.bind, pure, he, A_PRESS, C_PRESS, hm, hA, hC, h0, h1, h2, h3, h4, h5, h6,
      h7, h8, h9]

/-- Code that leaves `timeOfDay` alone, followed by code that does, leaves it alone. -/
theorem keepsTime_bind {α β : Type} (p : Prog α) (f : α → Prog β) (hp : keepsTime p)
    (hf : ∀ a, keepsTime (f a)) : keepsTime (Prog.bind p f) := by
  intro w
  have h1 := hp w
  unfold Prog.bind
  cases hpw : p w with
  | ret a w1 =>
    rw [hpw] at h1
    simp only [Outcome.world] at h1
    simp only [hf a w1, h1]
  | halt w1 =>
    rw [hpw] at h1
    simpa only [Outcome.world] using h1

/-- Recording an event leaves `timeOfDay` alone. -/
theorem keepsTime_emit (e : Ev) : keepsTime (emit e) := fun _ => rfl

/-- Returning a value leaves `timeOfDay` alone. -/
theorem keepsTime_pure {α : Type} (a : α) : keepsTime (pure a : Prog α) := fun _ => rfl

/-- `TimeGet` leaves `timeOfDay` as it was, whatever the kernel reports. -/
theorem keepsTime_TimeGet : keepsTime TimeGet := by
  intro w
  simp only [TimeGet, OSMutexPend, OSMutexPost, osCall, spin, readTime, bind, Prog.bind, pure]
  split_ifs <;> simp [Outcome.world] <;> split_ifs <;> simp [Outcome.world]

/-- `TimePend` leaves `timeOfDay` as it was, whatever the kernel reports. -/
theorem keepsTime_TimePend : keepsTime TimePend := by
  intro w
  simp only [TimePend, osCall, spin, readTime, bind, Prog.bind, pure]
  split_ifs <;> simp [Outcome.world]

/-- `TimeGet`, when it returns, returns the `timeOfDay` that it leaves. -/
theorem TimeGet_value (w w1 : World) (t : TIME_T) (h : TimeGet w = Outcome.ret t w1) :
    t = w1.timeOfDay := by
  simp only [TimeGet, OSMutexPend, OSMutexPost, osCall, spin, readTime, bind, Prog.bind,
    pure] at h
  split_ifs at h <;> simp at h <;> split_ifs at h <;> simp at h
  all_goals
    obtain ⟨h1, h2⟩ := h
    subst h1 h2
    rfl

/-- `TimeSet` leaves `timeOfDay` at the value passed or as it was. -/
theorem TimeSet_world (v : TIME_T) (w : World) :
    (TimeSet v w).world.timeOfDay = v ∨ (TimeSet v w).world.timeOfDay = w.timeOfDay := by
  simp only [TimeSet, OSMutexPend, OSMutexPost, osCall, spin, writeTime, bind, Prog.bind]
  split_ifs <;> simp [Outcome.world] <;> split_ifs <;> simp [Outcome.world]

/-- The switch on `set_state` never touches `timeOfDay`. -/
theorem keepsTime_UITask_digit (l : UILocals) : keepsTime (UITask_digit l) := by
  intro w
  obtain ⟨us, ss, ui, bt, ic⟩ := l
  cases ss <;> simp only [UITask_digit] <;> split_ifs <;>
    simp [emit, bind, Prog.bind, pure, Outcome.world]

/-- The `TIME` case never writes `timeOfDay`. -/
theorem keepsTime_UITask_time (l : UILocals) : keepsTime (UITask_time l) := by
  unfold UITask_time
  split_ifs
  · simp only [bind]
    refine keepsTime_bind _ _ keepsTime_TimeGet (fun t => ?_)
    intro w
    simp [emit, bind, Prog.bind, pure, Outcome.world]
  · exact keepsTime_pure l

/-- When what follows leaves `timeOfDay` alone, the time after the whole is the time
after the first part. -/
theorem bind_keepsTime {α β : Type} (p : Prog α) (f : α → Prog β)
    (hf : ∀ a, keepsTime (f a)) (w : World) :
    (Prog.bind p f w).world.timeOfDay = (p w).world.timeOfDay := by
  unfold Prog.bind
  cases hpw : p w with
  | ret a w1 => exact hf a w1
  | halt w1 => rfl

/-- The switch on the control codes writes `timeOfDay` only on CONFIRM, and then with
the buffer. -/
theorem UITask_control_world (l : UILocals) (w : World) :
    (UITask_control l w).world.timeOfDay = w.timeOfDay ∨
    (l.user_input = A_PRESS ∧ (UITask_control l w).world.timeOfDay = l.buffertime) := by
  unfold UITask_control
  split_ifs with hA hC
  · have hb := bind_keepsTime (TimeSet l.buffertime)
      (fun _ => Prog.bind (emit (Ev.LcdHideLayer Layer.TIMESETLAYER))
        (fun _ => (pure { l with ui_state := UISTATE.TIME } : Prog UILocals)))
      (fun _ => keepsTime_bind _ _ (keepsTime_emit _) (fun _ => keepsTime_pure _)) w
    rcases TimeSet_world l.buffertime w with h | h
    · right
      exact ⟨hA, hb.trans h⟩
    · left
      exact hb.trans h
  · left
    simp [emit, bind, Prog.bind, pure, Outcome.world]
  · left
    rfl

/-- The switch on `ui_state` writes `timeOfDay` only in `TIMESET` on CONFIRM, and then
with the buffer. -/
theorem UITask_switch_world (l : UILocals) (w : World) :
    (UITask_switch l w).world.timeOfDay = w.timeOfDay ∨
    (l.ui_state = UISTATE.TIMESET ∧ l.user_input = A_PRESS ∧
      (UITask_switch l w).world.timeOfDay = l.buffertime) := by
  obtain ⟨us, ss, ui, bt, ic⟩ := l
  cases us with
  | TIME =>
    left
    exact keepsTime_UITask_time _ w
  | TIMESET =>
    have hb := bind_keepsTime
      (UITask_control
        { ui_state := UISTATE.TIMESET, set_state := ss, user_input := ui, buffertime := bt,
          init_check := ic })
      (fun l1 => Prog.bind (UITask_digit l1) (fun l2 => Prog.bind
        (emit (Ev.LcdDispTime ROW2 COLUMN9 Layer.TIMESETLAYER l2.buffertime.hr
          l2.buffertime.min l2.buffertime.sec)) (fun _ => (pure l2 : Prog UILocals))))
      (fun l1 => keepsTime_bind _ _ (keepsTime_UITask_digit l1)
        (fun l2 => keepsTime_bind _ _ (keepsTime_emit _) (fun _ => keepsTime_pure _))) w
    rcases UITask_control_world
      { ui_state := UISTATE.TIMESET, set_state := ss, user_input := ui, buffertime := bt,
        init_check := ic } w with h | ⟨hA, h⟩
    · left
      exact hb.trans h
    · right
      exact ⟨rfl, hA, hb.trans h⟩

/-- The first part of a pass never writes `timeOfDay`; it keeps `ui_state`, on the first
pass it leaves the snapshot in the buffer, on a later pass the key in `user_input`. -/
theorem UITask_input_spec (key : Nat) (l : UILocals) (w : World) :
    (UITask_input key l w).world.timeOfDay = w.timeOfDay ∧
    ∀ l1 w1, UITask_input key l w = Outcome.ret l1 w1 →
      l1.ui_state = l.ui_state ∧ (l.init_check ≠ 0 → l1.buffertime = w1.timeOfDay) ∧
      (l.init_check = 0 → l1.user_input = key % 256) := by
  unfold UITask_input
  split_ifs with hi
  · constructor
    · exact keepsTime_bind _ _ keepsTime_TimeGet
        (fun t => keepsTime_bind _ _ (keepsTime_emit _)
          (fun _ => keepsTime_bind _ _ (keepsTime_emit _) (fun _ => keepsTime_pure _))) w
    · intro l1 w1 h
      simp only [bind, Prog.bind] at h
      cases hg : TimeGet w with
      | ret t w2 =>
        have ht := TimeGet_value w w2 t hg
        simp [hg, emit, pure] at h
        obtain ⟨h1, h2⟩ := h
        subst h1 h2
        exact ⟨rfl, fun _ => ht, fun h0 => absurd h0 hi⟩
      | halt w2 => simp [hg] at h
  · constructor
    · simp only [emit, osCall, spin, bind, Prog.bind, pure]
      split_ifs <;> simp [Outcome.world]
    · intro l1 w1 h
      simp only [emit, osCall, spin, bind, Prog.bind, pure] at h
      split_ifs at h
      simp at h
      obtain ⟨h1, h2⟩ := h
      subst h1 h2
      exact ⟨rfl, fun h0 => absurd (not_not.mp hi) h0, fun _ => rfl⟩

/-- Whatever the kernel reports, in the calls of one iteration of `timeTask` the post
of `timeChgFlag`, when it is reached, and every access to `timeOfDay` happen while
the mutex is held. -/
theorem timeTask_iter_trace (w : World) :
    ∃ added, (timeTask_iter w).world.trace = w.trace ++ added ∧
      postsInsideLock false added = true ∧ guardedFrom false added = true := by
  by_cases h0 : w.os_err w.calls = OS_ERR_NONE
  · by_cases h1 : w.os_err (w.calls + 1) = OS_ERR_NONE
    · by_cases h2 : w.os_err (w.calls + 1 + 1) = OS_ERR_NONE
      · by_cases h3 : w.os_err (w.calls + 1 + 1 + 1) = OS_ERR_NONE
        · refine ⟨[Ev.DB 3 false, Ev.OSSemPend Sem.timeSecFlag, Ev.OSMutexPend, Ev.DB 3 true,
            Ev.readTimeOfDay, Ev.writeTimeOfDay, Ev.OSSemPost Sem.timeChgFlag, Ev.OSMutexPost],
            ?_, by decide, by decide⟩
          simp [timeTask_iter, OSMutexPend, OSMutexPost, osCall, spin, readTime, writeTime, emit,
            bind, Prog.bind, Outcome.world, h0, h1, h2, h3]
        · refine ⟨[Ev.DB 3 false, Ev.OSSemPend Sem.timeSecFlag, Ev.OSMutexPend, Ev.DB 3 true,
            Ev.readTimeOfDay, Ev.writeTimeOfDay, Ev.OSSemPost Sem.timeChgFlag, Ev.OSMutexPost],
            ?_, by decide, by decide⟩
          simp [timeTask_iter, OSMutexPend, OSMutexPost, osCall, spin, readTime, writeTime, emit,
            bind, Prog.bind, Outcome.world, h0, h1, h2, h3]
      · refine ⟨[Ev.DB 3 false, Ev.OSSemPend Sem.timeSecFlag, Ev.OSMutexPend, Ev.DB 3 true,
          Ev.readTimeOfDay, Ev.writeTimeOfDay, Ev.OSSemPost Sem.timeChgFlag],
          ?_, by decide, by decide⟩
        simp [timeTask_iter, OSMutexPend, OSMutexPost, osCall, spin, readTime, writeTime, emit,
          bind, Prog.bind, Outcome.world, h0, h1, h2]
    · refine ⟨[Ev.DB 3 false, Ev.OSSemPend Sem.timeSecFlag, Ev.OSMutexPend], ?_, by decide,
        by decide⟩
      simp [timeTask_iter, OSMutexPend, OSMutexPost, osCall, spin, readTime, writeTime, emit,
        bind, Prog.bind, Outcome.world, h0, h1]
  · refine ⟨[Ev.DB 3 false, Ev.OSSemPend Sem.timeSecFlag], ?_, by decide, by decide⟩
    simp [timeTask_iter, OSMutexPend, OSMutexPost, osCall, spin, readTime, writeTime, emit,
      bind, Prog.bind, Outcome.world, h0]

/-- Whatever the kernel reports, `TimeGet` reads `timeOfDay` only while it holds the mutex. -/
theorem TimeGet_trace_guarded (w : World) :
    ∃ added, (TimeGet w).world.trace = w.trace ++ added ∧ guardedFrom false added = true := by
  by_cases h0 : w.os_err w.calls = OS_ERR_NONE
  · by_cases h1 : w.os_err (w.calls + 1) = OS_ERR_NONE
    · refine ⟨[Ev.OSMutexPend, Ev.readTimeOfDay, Ev.OSMutexPost], ?_, by decide⟩
      simp [TimeGet, OSMutexPend, OSMutexPost, osCall, spin, readTime, bind, Prog.bind, pure,
        Outcome.world, h0, h1]
    · refine ⟨[Ev.OSMutexPend, Ev.readTimeOfDay, Ev.OSMutexPost], ?_, by decide⟩
      simp [TimeGet, OSMutexPend, OSMutexPost, osCall, spin, readTime, bind, Prog.bind, pure,
        Outcome.world, h0, h1]
  · refine ⟨[Ev.OSMutexPend], ?_, by decide⟩
    simp [TimeGet, OSMutexPend, OSMutexPost, osCall, spin, readTime, bind, Prog.bind, pure,
      Outcome.world, h0]

/-- Whatever the kernel reports, `TimeSet` writes `timeOfDay` only while it holds the mutex. -/
theorem TimeSet_trace_guarded (v : TIME_T) (w : World) :
    ∃ added, (TimeSet v w).world.trace = w.trace ++ added ∧ guardedFrom false added = true := by
  by_cases h0 : w.os_err w.calls = OS_ERR_NONE
  · by_cases h1 : w.os_err (w.calls + 1) = OS_ERR_NONE
    · refine ⟨[Ev.OSMutexPend, Ev.writeTimeOfDay, Ev.OSMutexPost], ?_, by decide⟩
      simp [TimeSet, OSMutexPend, OSMutexPost, osCall, spin, writeTime, bind, Prog.bind,
        Outcome.world, h0, h1]
    · refine ⟨[Ev.OSMutexPend, Ev.writeTimeOfDay, Ev.OSMutexPost], ?_, by decide⟩
      simp [TimeSet, OSMutexPend, OSMutexPost, osCall, spin, writeTime, bind, Prog.bind,
        Outcome.world, h0, h1]
  · refine ⟨[Ev.OSMutexPend], ?_, by decide⟩
    simp [TimeSet, OSMutexPend, OSMutexPost, osCall, spin, writeTime, bind, Prog.bind,
      Outcome.world, h0]

/-- An edit step keeps the bounds of the edit buffer. -/
theorem editStep_editInv (l : UILocals) (d : Nat) (hd : d ≤ 9) (h : editInv l) :
    editInv (editStep l d) := by
  obtain ⟨us, ss, ui, ⟨bh, bm, bs⟩, ic⟩ := l
  obtain ⟨h1, h2, h3, h4⟩ := h
  simp only at h1 h2 h3 h4
  unfold editStep
  split_ifs with ha
  · simp only [writeDigit256_eq ss (TIME_T.mk bh bm bs) d hd
      ⟨by simp only; omega, by simp only; omega, by simp only; omega⟩]
    cases ss <;>
      simp only [tableAllows, decide_eq_true_eq, Bool.or_eq_true, Bool.and_eq_true] at ha <;>
      simp [editInv, writeDigit, writeTens, writeOnes, nextSlot] at h4 ⊢ <;>
      omega
  · exact ⟨h1, h2, h3, h4⟩

/-- A pass in `TIMESET` on a key that is not a control code stays in `TIMESET`, keeps
the bounds of the edit buffer and leaves the kernel's error codes as they were. -/
theorem UITask_body_editInv (l : UILocals) (w : World) (k : Nat)
    (hs : l.ui_state = UISTATE.TIMESET) (hi : l.init_check = 0) (hinv : editInv l)
    (he : w.os_err w.calls = OS_ERR_NONE) (hk : k < 256)
    (hA : k ≠ A_PRESS) (hC : k ≠ C_PRESS) :
    ∃ l1 w1, UITask_body k l w = Outcome.ret l1 w1 ∧ l1.ui_state = UISTATE.TIMESET ∧
      l1.init_check = 0 ∧ editInv l1 ∧ w1.os_err = w.os_err := by
  by_cases hdig : 0x30 ≤ k ∧ k ≤ 0x39
  · have hkd : k = 0x30 + (k - 0x30) := by omega
    have hstep := UITask_body_digit l w (k - 0x30) hs hi (by omega) he
    rw [← hkd] at hstep
    refine ⟨_, _, hstep, ?_, ?_, editStep_editInv l _ (by omega) hinv, rfl⟩
    · rw [editStep_ui_state]
      exact hs
    · rw [editStep_init_check]
      exact hi
  · exact ⟨_, _, UITask_body_other l w k hs hi he hk hA hC (by omega), hs, hi, hinv, rfl⟩

/-- Keys that are not control codes, typed in `TIMESET`, stay in `TIMESET` and keep the
bounds of the edit buffer. -/
theorem run_editInv (ks : List Nat) (l : UILocals) (w : World)
    (hs : l.ui_state = UISTATE.TIMESET) (hi : l.init_check = 0) (hinv : editInv l)
    (hks : ∀ k ∈ ks, k < 256 ∧ k ≠ A_PRESS ∧ k ≠ C_PRESS) (h : w.noError) :
    ∃ l1 w1, run (ks.map Event.pass) l w = Outcome.ret l1 w1 ∧
      l1.ui_state = UISTATE.TIMESET ∧ editInv l1 := by
  induction ks generalizing l w with
  | nil => exact ⟨l, w, by simp [run, pure], hs, hinv⟩
  | cons k ks ih =>
    obtain ⟨hk, hA, hC⟩ := hks k (List.mem_cons_self k ks)
    obtain ⟨l1, w1, hstep, h1, h2, h3, h4⟩ := UITask_body_editInv l w k hs hi hinv (h _) hk hA hC
    obtain ⟨l2, w2, hrun, h5, h6⟩ := ih l1 w1 h1 h2 h3
      (fun j hj => hks j (List.mem_cons_of_mem k hj)) (fun i => by rw [h4]; exact h i)
    refine ⟨l2, w2, ?_, h5, h6⟩
    simp only [List.map_cons, run, step, bind, Prog.bind, hstep]
    exact hrun

/-- The pass in `TIME` on a key other than # only stores the key code. -/
theorem UITask_body_time_other (l : UILocals) (w : World) (k : Nat)
    (hs : l.ui_state = UISTATE.TIME) (hi : l.init_check = 0)
    (he : w.os_err w.calls = OS_ERR_NONE) (hk : k % 256 ≠ 0x23) :
    UITask_body k l w = Outcome.ret { l with user_input := k % 256 }
      { w with calls := w.calls + 1,
               trace := w.trace ++ [Ev.DB 0 false, Ev.KeyPend, Ev.DB 0 true] } := by
  obtain ⟨us, ss, ui, bt, ic⟩ := l
  simp only at hs hi
  subst hs hi
  simp [UITask_body, UITask_input, UITask_switch, UITask_time, osCall, spin, emit, bind,
    Prog.bind, pure, he, hk]

/-- The count after a trace that goes on is the count carried through what was added. -/
theorem semCount_append (s : Sem) (tr added : List Ev) :
    semCount s (tr ++ added) = added.foldl (semStep s) (semCount s tr) := by
  simp [semCount, List.foldl_append]

/-- One tick when the kernel reports no error. -/
theorem tickOnce_ok (w : World) (h : w.noError) :
    tickOnce w = Outcome.ret ()
      { w with timeOfDay := advance w.timeOfDay, mutexHeld := false, calls := w.calls + 5,
               trace := w.trace ++ [Ev.OSSemPost Sem.timeSecFlag, Ev.DB 3 false,
                 Ev.OSSemPend Sem.timeSecFlag, Ev.OSMutexPend, Ev.DB 3 true, Ev.readTimeOfDay,
                 Ev.writeTimeOfDay, Ev.OSSemPost Sem.timeChgFlag, Ev.OSMutexPost] } := by
  simp [tickOnce, RTC_Seconds_IRQHandler, timeTask_iter, OSMutexPend, OSMutexPost, osCall, spin,
    readTime, writeTime, emit, bind, Prog.bind, h _]

/-- `TimePend` when the kernel reports no error. -/
theorem TimePend_ok (w : World) (h : w.noError) :
    TimePend w = Outcome.ret w.timeOfDay
      { w with calls := w.calls + 1,
               trace := w.trace ++ [Ev.OSSemPend Sem.timeChgFlag, Ev.readTimeOfDay] } := by
  simp [TimePend, osCall, spin, readTime, bind, Prog.bind, pure, h _]

/-- With no notification pending, a tick makes the next `TimePend` return, with the
advanced time. -/
theorem TimePend_after_tick (w : World) (h : w.noError)
    (hc : semCount Sem.timeChgFlag w.trace = 0) :
    ∃ w5 w6, tickOnce w = Outcome.ret () w5 ∧
      TimePend_count w5 = some (Outcome.ret (advance w.timeOfDay) w6) := by
  have h5 := TimePend_ok
    { w with timeOfDay := advance w.timeOfDay, mutexHeld := false, calls := w.calls + 5,
             trace := w.trace ++ [Ev.OSSemPost Sem.timeSecFlag, Ev.DB 3 false,
               Ev.OSSemPend Sem.timeSecFlag, Ev.OSMutexPend, Ev.DB 3 true, Ev.readTimeOfDay,
               Ev.writeTimeOfDay, Ev.OSSemPost Sem.timeChgFlag, Ev.OSMutexPost] }
    (fun i => h i)
  have key : TimePend_count
      { w with timeOfDay := advance w.timeOfDay, mutexHeld := false, calls := w.calls + 5,
               trace := w.trace ++ [Ev.OSSemPost Sem.timeSecFlag, Ev.DB 3 false,
                 Ev.OSSemPend Sem.timeSecFlag, Ev.OSMutexPend, Ev.DB 3 true, Ev.readTimeOfDay,
                 Ev.writeTimeOfDay, Ev.OSSemPost Sem.timeChgFlag, Ev.OSMutexPost] }
      = some (Outcome.ret (advance w.timeOfDay)
          { w with timeOfDay := advance w.timeOfDay, mutexHeld := false,
                   calls := w.calls + 5 + 1,
                   trace := w.trace ++ [Ev.OSSemPost Sem.timeSecFlag, Ev.DB 3 false,
                     Ev.OSSemPend Sem.timeSecFlag, Ev.OSMutexPend, Ev.DB 3 true,
                     Ev.readTimeOfDay, Ev.writeTimeOfDay, Ev.OSSemPost Sem.timeChgFlag,
                     Ev.OSMutexPost] ++ [Ev.OSSemPend Sem.timeChgFlag, Ev.readTimeOfDay] }) := by
    simp only [TimePend_count]
    rw [if_neg (by simp [semCount_append, hc, semStep])]
    exact congrArg some h5
  exact ⟨_, _, tickOnce_ok w h, key⟩

/-! ## The claims

A state of `UITask` "in `TIMESET`" or "in `TIME`" is a state of its locals after the
first pass (`init_check = 0`).  The claims on passes are stated for a kernel that
reports no error at the calls the pass makes: `w.os_err w.calls = OS_ERR_NONE` when
`KeyPend` is the only call, `w.noError` otherwise.  A digit key is `0x30 + d` with
`d <= 9`; CONFIRM is `A_PRESS`, CANCEL is `C_PRESS`, the enter-edit key # is `0x23`.
-/

/-- C1, on the code: from reset, after the first pass of `UITask` (which reads no key),
the keys 1, 9, CONFIRM, #, 2, CONFIRM run to their end and leave the authoritative
time at 29:00:00, which is out of range, and the `TimeGet` that follows returns it. -/
theorem C1_commit_leaves_hour_29 :
    (boot 0 (TIME_T.mk 0 0 0)
        [Event.pass 0, Event.pass 0x31, Event.pass 0x39, Event.pass A_PRESS, Event.pass 0x23,
          Event.pass 0x32, Event.pass A_PRESS] (World.reset noErr)).world.timeOfDay
      = TIME_T.mk 29 0 0 ∧
    ¬ (TIME_T.mk 29 0 0).valid ∧
    (Prog.bind
        (boot 0 (TIME_T.mk 0 0 0)
          [Event.pass 0, Event.pass 0x31, Event.pass 0x39, Event.pass A_PRESS, Event.pass 0x23,
            Event.pass 0x32, Event.pass A_PRESS])
        (fun _ => TimeGet) (World.reset noErr)).value = some (TIME_T.mk 29 0 0) := by
  refine ⟨?_, by decide, ?_⟩ <;>
    simp [boot, run, step, UITask_body, UITask_input, UITask_switch, UITask_control,
      UITask_digit, UITask_time, UITask_locals, TimeInit, TimeGet, TimeSet, OSMutexPend,
      OSMutexPost, osCall, spin, writeTime, readTime, emit, bind, Prog.bind, pure, World.reset,
      noErr, Outcome.world, Outcome.value, OS_ERR_NONE, A_PRESS, C_PRESS]

/-- C2: for every time of day with hr <= 23, min <= 59 and sec <= 59, the update of one
iteration of `timeTask` gives a time of day within the same bounds, and so does any
number of repeated updates. -/
theorem C2_advance_stays_in_range (t : TIME_T) (h : t.valid) :
    (advance t).valid ∧ ∀ n : Nat, (advance^[n] t).valid := by
  refine ⟨advance_valid t h, fun n => ?_⟩
  induction n with
  | zero => simpa using h
  | succ k ih =>
    rw [Function.iterate_succ_apply']
    exact advance_valid _ ih

/-- C2 at 23:59:59, the value at which all three fields roll over. -/
theorem C2_advance_stays_in_range_witness :
    (TIME_T.mk 23 59 59).valid ∧
      ((advance (TIME_T.mk 23 59 59)).valid ∧ ∀ n : Nat, (advance^[n] (TIME_T.mk 23 59 59)).valid) :=
  ⟨by decide, C2_advance_stays_in_range (TIME_T.mk 23 59 59) (by decide)⟩

/-- C3: for every in-range time of day, the update of one iteration of `timeTask` adds
one second modulo a day, secondsOf (advance t) = (secondsOf t + 1) mod 86400: a second
below 59 is incremented, a second of 59 rolls to 0 and increments the minute, a
minute of 59 rolls to 0 and increments the hour, and an hour of 23 wraps to 0. -/
theorem C3_advance_adds_one_second (t : TIME_T) (h : t.valid) :
    secondsOf (advance t) = (secondsOf t + 1) % 86400 ∧
    (t.sec < 59 → advance t = { hr := t.hr, min := t.min, sec := t.sec + 1 }) ∧
    (t.sec = 59 → t.min < 59 → advance t = { hr := t.hr, min := t.min + 1, sec := 0 }) ∧
    (t.sec = 59 → t.min = 59 → t.hr < 23 → advance t = { hr := t.hr + 1, min := 0, sec := 0 }) ∧
    (t.sec = 59 → t.min = 59 → t.hr = 23 → advance t = { hr := 0, min := 0, sec := 0 }) := by
  obtain ⟨h1, h2, h3⟩ := h
  refine ⟨?_, ?_, ?_, ?_, ?_⟩
  · unfold advance secondsOf
    split_ifs <;> simp <;> omega
  · intro hs
    unfold advance
    split_ifs <;> simp <;> omega
  · intro hs hm
    unfold advance
    split_ifs <;> simp <;> omega
  · intro hs hm hh
    unfold advance
    split_ifs <;> simp <;> omega
  · intro hs hm hh
    unfold advance
    split_ifs <;> simp <;> omega

/-- C3 at 23:59:59: the update gives 00:00:00, second 0 of the next day. -/
theorem C3_advance_adds_one_second_witness :
    (TIME_T.mk 23 59 59).valid ∧
    (secondsOf (advance (TIME_T.mk 23 59 59)) = (secondsOf (TIME_T.mk 23 59 59) + 1) % 86400 ∧
      advance (TIME_T.mk 23 59 59) = TIME_T.mk 0 0 0) :=
  ⟨by decide, (C3_advance_adds_one_second (TIME_T.mk 23 59 59) (by decide)).1,
    (C3_advance_adds_one_second (TIME_T.mk 23 59 59) (by decide)).2.2.2.2 rfl rfl rfl⟩

/-- C4: in every `TIMESET` state, for every digit key d the pass accepts the digit
exactly when the table of the specification allows it at the cursor slot: hour-tens
accepts 0-2; hour-ones accepts 0-3 always and 4-9 only when the hour tens digit of the
buffer (`hr / 10`, which is the decimal tens digit of every hour below 100) is not 2;
minute-tens and second-tens accept 0-5; minute-ones and second-ones accept 0-9.
Accepting is writing the digit at its decimal place of the buffer (as a byte) and
moving the cursor to the next slot: the buffer and cursor after the pass are the
written buffer and the next slot exactly when the table allows the digit, and then
`user_input` holds the digit's value; the accepting branch, which turns `user_input`
from the key code into the digit's value, is taken exactly then; at every slot but
second-ones the cursor moves exactly then; a digit that is not allowed leaves the
cursor slot and the three fields of the buffer unchanged; the authoritative time is
never touched. -/
theorem C4_acceptance_table (l : UILocals) (w : World) (d : Nat)
    (hs : l.ui_state = UISTATE.TIMESET) (hi : l.init_check = 0) (hd : d ≤ 9)
    (he : w.os_err w.calls = OS_ERR_NONE) :
    ∃ l1 w1, UITask_body (0x30 + d) l w = Outcome.ret l1 w1 ∧
      (tableAllows l.set_state l.buffertime d = true ↔
        match l.set_state with
        | SETSTATE.HOURTENS => d ≤ 2
        | SETSTATE.HOURONES => d ≤ 3 ∨ l.buffertime.hr / 10 ≠ 2
        | SETSTATE.MINUTETENS => d ≤ 5
        | SETSTATE.MINUTEONES => True
        | SETSTATE.SECONDTENS => d ≤ 5
        | SETSTATE.SECONDONES => True) ∧
      ((l1.buffertime = writeDigit256 l.set_state l.buffertime d ∧
          l1.set_state = nextSlot l.set_state) ↔
        tableAllows l.set_state l.buffertime d = true) ∧
      (tableAllows l.set_state l.buffertime d = true →
        l1.buffertime = writeDigit256 l.set_state l.buffertime d ∧
        l1.set_state = nextSlot l.set_state ∧
        l1.user_input = digitValue l.set_state d) ∧
      (l1.user_input ≠ 0x30 + d ↔ tableAllows l.set_state l.buffertime d = true) ∧
      (l.set_state ≠ SETSTATE.SECONDONES →
        (l1.set_state ≠ l.set_state ↔ tableAllows l.set_state l.buffertime d = true)) ∧
      (tableAllows l.set_state l.buffertime d = false →
        l1.set_state = l.set_state ∧ l1.buffertime = l.buffertime) ∧
      w1.timeOfDay = w.timeOfDay := by
  refine ⟨_, _, UITask_body_digit l w d hs hi hd he, ?_, ?_, ?_, ?_, ?_, ?_, rfl⟩
  · cases l.set_state <;> simp [tableAllows] <;> omega
  · unfold editStep
    split
    · rename_i ha
      simp [ha]
    · rename_i ha
      simp only [ha, iff_false, not_and, Bool.false_eq_true]
      intro _
      revert ha
      cases l.set_state <;> simp [nextSlot, tableAllows]
      omega
  · intro ha
    simp [editStep, ha]
  · unfold editStep
    split
    · rename_i ha
      simp only [ha, iff_true]
      cases l.set_state <;> simp only [digitValue] <;> omega
    · rename_i ha
      simp [ha]
  · intro hne
    unfold editStep
    split
    · rename_i ha
      simp only [ha, iff_true]
      revert hne
      cases l.set_state <;> simp [nextSlot]
    · rename_i ha
      simp [ha]
  · intro ha
    simp [editStep, ha]

/-- C4 at the hour-ones slot, for the two cases the specification names: with the
buffer 23:15:00 (hour tens 2) the digit 4 is rejected, cursor and buffer stay; with the
buffer 12:00:00 (hour tens 1) the digit 9 is accepted, the hour becomes 19 and the
cursor moves to minute-tens. -/
theorem C4_acceptance_table_witness :
    ((editingAt SETSTATE.HOURONES (TIME_T.mk 23 15 0)).ui_state = UISTATE.TIMESET ∧
      (editingAt SETSTATE.HOURONES (TIME_T.mk 23 15 0)).init_check = 0 ∧ 4 ≤ 9 ∧
      (World.reset noErr).os_err (World.reset noErr).calls = OS_ERR_NONE) ∧
    ((editingAt SETSTATE.HOURONES (TIME_T.mk 12 0 0)).ui_state = UISTATE.TIMESET ∧
      (editingAt SETSTATE.HOURONES (TIME_T.mk 12 0 0)).init_check = 0 ∧ 9 ≤ 9 ∧
      (World.reset noErr).os_err (World.reset noErr).calls = OS_ERR_NONE) ∧
    tableAllows SETSTATE.HOURONES (TIME_T.mk 23 15 0) 4 = false ∧
    tableAllows SETSTATE.HOURONES (TIME_T.mk 12 0 0) 9 = true ∧
    (∃ l1 w1, UITask_body (0x30 + 4) (editingAt SETSTATE.HOURONES (TIME_T.mk 23 15 0))
        (World.reset noErr) = Outcome.ret l1 w1 ∧
      l1.set_state = SETSTATE.HOURONES ∧ l1.buffertime = TIME_T.mk 23 15 0) ∧
    (∃ l1 w1, UITask_body (0x30 + 9) (editingAt SETSTATE.HOURONES (TIME_T.mk 12 0 0))
        (World.reset noErr) = Outcome.ret l1 w1 ∧
      l1.set_state = SETSTATE.MINUTETENS ∧ l1.buffertime = TIME_T.mk 19 0 0) :=
  ⟨⟨rfl, rfl, by decide, rfl⟩, ⟨rfl, rfl, by decide, rfl⟩, by decide, by decide,
    (C4_acceptance_table (editingAt SETSTATE.HOURONES (TIME_T.mk 23 15 0)) (World.reset noErr) 4
      rfl rfl (by decide) rfl).elim
      (fun l1 h1 => h1.elim (fun w1 h =>
        ⟨l1, w1, h.1, (h.2.2.2.2.2.2.1 (by decide)).1, (h.2.2.2.2.2.2.1 (by decide)).2⟩)),
    (C4_acceptance_table (editingAt SETSTATE.HOURONES (TIME_T.mk 12 0 0)) (World.reset noErr) 9
      rfl rfl (by decide) rfl).elim
      (fun l1 h1 => h1.elim (fun w1 h =>
        ⟨l1, w1, h.1, (h.2.2.2.1 (by decide)).2.1, (h.2.2.2.1 (by decide)).1⟩))⟩

/-- C5: in every `TIMESET` state whose buffer fields are below 100, a digit d that the
table allows at the cursor slot is written at exactly that decimal place, by
`(field % 10) + d*10` at a tens slot and `(field - field % 10) + d` at a ones slot:
the addressed decimal digit becomes d, the five other decimal digits and the two
other fields are kept, and the cursor moves to the next slot, staying at second-ones
when it is there. -/
theorem C5_accepted_digit_written (l : UILocals) (w : World) (d : Nat)
    (hs : l.ui_state = UISTATE.TIMESET) (hi : l.init_check = 0) (hd : d ≤ 9)
    (he : w.os_err w.calls = OS_ERR_NONE)
    (hb : l.buffertime.hr < 100 ∧ l.buffertime.min < 100 ∧ l.buffertime.sec < 100)
    (ha : tableAllows l.set_state l.buffertime d = true) :
    ∃ l1 w1, UITask_body (0x30 + d) l w = Outcome.ret l1 w1 ∧
      l1.buffertime = writeDigit l.set_state l.buffertime d ∧
      digitAt l.set_state l1.buffertime = d ∧
      (∀ s, s ≠ l.set_state → digitAt s l1.buffertime = digitAt s l.buffertime) ∧
      otherFieldsSame l.set_state l.buffertime l1.buffertime ∧
      l1.set_state = nextSlot l.set_state := by
  refine ⟨_, _, UITask_body_digit l w d hs hi hd he, ?_⟩
  obtain ⟨us, ss, ui, ⟨bh, bm, bs⟩, ic⟩ := l
  simp only at hb ha ⊢
  simp only [editStep, ha, if_true, writeDigit256_eq ss (TIME_T.mk bh bm bs) d hd hb]
  obtain ⟨hb1, hb2, hb3⟩ := hb
  cases ss <;> simp only [tableAllows, decide_eq_true_eq, Bool.or_eq_true, Bool.and_eq_true] at ha <;>
    simp only [writeDigit, writeTens, writeOnes, otherFieldsSame, nextSlot,
      and_true, true_and] <;>
    refine ⟨by simp only [digitAt]; omega, ?_⟩ <;>
    intro s hne <;> cases s <;> simp only [digitAt, ne_eq, not_true_eq_false] at hne ⊢ <;> omega

/-- C5 at the hour-ones slot with the buffer 12:00:00 and the digit 9: the hour
becomes 19. -/
theorem C5_accepted_digit_written_witness :
    (editingAt SETSTATE.HOURONES (TIME_T.mk 12 0 0)).ui_state = UISTATE.TIMESET ∧
    (editingAt SETSTATE.HOURONES (TIME_T.mk 12 0 0)).init_check = 0 ∧
    9 ≤ 9 ∧
    (World.reset noErr).os_err (World.reset noErr).calls = OS_ERR_NONE ∧
    ((editingAt SETSTATE.HOURONES (TIME_T.mk 12 0 0)).buffertime.hr < 100 ∧
      (editingAt SETSTATE.HOURONES (TIME_T.mk 12 0 0)).buffertime.min < 100 ∧
      (editingAt SETSTATE.HOURONES (TIME_T.mk 12 0 0)).buffertime.sec < 100) ∧
    tableAllows (editingAt SETSTATE.HOURONES (TIME_T.mk 12 0 0)).set_state
      (editingAt SETSTATE.HOURONES (TIME_T.mk 12 0 0)).buffertime 9 = true ∧
    writeDigit SETSTATE.HOURONES (TIME_T.mk 12 0 0) 9 = TIME_T.mk 19 0 0 ∧
    ∃ l1 w1, UITask_body (0x30 + 9) (editingAt SETSTATE.HOURONES (TIME_T.mk 12 0 0))
        (World.reset noErr) = Outcome.ret l1 w1 ∧
      l1.buffertime = writeDigit (editingAt SETSTATE.HOURONES (TIME_T.mk 12 0 0)).set_state
        (editingAt SETSTATE.HOURONES (TIME_T.mk 12 0 0)).buffertime 9 ∧
      digitAt (editingAt SETSTATE.HOURONES (TIME_T.mk 12 0 0)).set_state l1.buffertime = 9 ∧
      (∀ s, s ≠ (editingAt SETSTATE.HOURONES (TIME_T.mk 12 0 0)).set_state →
        digitAt s l1.buffertime =
          digitAt s (editingAt SETSTATE.HOURONES (TIME_T.mk 12 0 0)).buffertime) ∧
      otherFieldsSame (editingAt SETSTATE.HOURONES (TIME_T.mk 12 0 0)).set_state
        (editingAt SETSTATE.HOURONES (TIME_T.mk 12 0 0)).buffertime l1.buffertime ∧
      l1.set_state = nextSlot (editingAt SETSTATE.HOURONES (TIME_T.mk 12 0 0)).set_state :=
  ⟨rfl, rfl, by decide, rfl, by decide, by decide, by decide,
    C5_accepted_digit_written (editingAt SETSTATE.HOURONES (TIME_T.mk 12 0 0))
      (World.reset noErr) 9 rfl rfl (by decide) rfl (by decide) (by decide)⟩

/-- C6: in every `TIMESET` state, at any cursor slot and with any buffer b, the pass
that receives CONFIRM (0x11) runs to its end, leaves the authoritative time equal to
b in all three fields, and leaves the machine in the display state `TIME`. -/
theorem C6_confirm_commits_buffer (l : UILocals) (w : World)
    (hs : l.ui_state = UISTATE.TIMESET) (hi : l.init_check = 0) (h : w.noError) :
    ∃ l1 w1, UITask_body A_PRESS l w = Outcome.ret l1 w1 ∧
      w1.timeOfDay = l.buffertime ∧ l1.ui_state = UISTATE.TIME :=
  ⟨_, _, UITask_body_confirm l w hs hi h, rfl, rfl⟩

/-- C6 at the minute-tens slot with the buffer 07:45:30. -/
theorem C6_confirm_commits_buffer_witness :
    (editingAt SETSTATE.MINUTETENS (TIME_T.mk 7 45 30)).ui_state = UISTATE.TIMESET ∧
    (editingAt SETSTATE.MINUTETENS (TIME_T.mk 7 45 30)).init_check = 0 ∧
    (World.reset noErr).noError ∧
    ∃ l1 w1, UITask_body A_PRESS (editingAt SETSTATE.MINUTETENS (TIME_T.mk 7 45 30))
        (World.reset noErr) = Outcome.ret l1 w1 ∧
      w1.timeOfDay = (editingAt SETSTATE.MINUTETENS (TIME_T.mk 7 45 30)).buffertime ∧
      l1.ui_state = UISTATE.TIME :=
  ⟨rfl, rfl, reset_noError,
    C6_confirm_commits_buffer (editingAt SETSTATE.MINUTETENS (TIME_T.mk 7 45 30))
      (World.reset noErr) rfl rfl reset_noError⟩

/-- C7: for every authoritative time and every `TIMESET` state, any finite sequence of
digit keys followed by CANCEL (0x13), with no tick in between, runs to its end in the
display state `TIME` with the authoritative time unchanged; the calls made on the way
contain neither a pend on the mutex nor a write of `timeOfDay`, so `TimeSet` is not
called. -/
theorem C7_cancel_keeps_time (l : UILocals) (w : World) (ds : List Nat)
    (hs : l.ui_state = UISTATE.TIMESET) (hi : l.init_check = 0)
    (hds : ∀ k ∈ ds, 0x30 ≤ k ∧ k ≤ 0x39) (h : w.noError) :
    ∃ l1 w1 added, run (ds.map Event.pass ++ [Event.pass C_PRESS]) l w = Outcome.ret l1 w1 ∧
      l1.ui_state = UISTATE.TIME ∧ w1.timeOfDay = w.timeOfDay ∧
      w1.trace = w.trace ++ added ∧
      Ev.OSMutexPend ∉ added ∧ Ev.writeTimeOfDay ∉ added := by
  obtain ⟨l1, w1, added, hrun, h1, h2, h3, h4, h5, h6, h7⟩ := run_digits ds l w hs hi hds h
  refine ⟨{ l1 with ui_state := UISTATE.TIME, user_input := C_PRESS },
    { w1 with calls := w1.calls + 1,
              trace := w1.trace ++ [Ev.DB 0 false, Ev.KeyPend, Ev.DB 0 true,
                Ev.LcdHideLayer Layer.TIMESETLAYER,
                Ev.LcdDispTime ROW2 COLUMN9 Layer.TIMESETLAYER l1.buffertime.hr
                  l1.buffertime.min l1.buffertime.sec] },
    added ++ [Ev.DB 0 false, Ev.KeyPend, Ev.DB 0 true, Ev.LcdHideLayer Layer.TIMESETLAYER,
      Ev.LcdDispTime ROW2 COLUMN9 Layer.TIMESETLAYER l1.buffertime.hr l1.buffertime.min
        l1.buffertime.sec], ?_, ?_, ?_, ?_, ?_, ?_⟩
  · rw [run_append, hrun]
    simp only [run, step, bind, Prog.bind, UITask_body_cancel l1 w1 h1 h2 (h4 _), pure]
  · rfl
  · exact h3
  · simp [h5]
  · simp [h6]
  · simp [h7]

/-- C7 for the digits 2, 9, 3 typed from the hour-tens slot, then CANCEL. -/
theorem C7_cancel_keeps_time_witness :
    (editingAt SETSTATE.HOURTENS (TIME_T.mk 12 0 0)).ui_state = UISTATE.TIMESET ∧
    (editingAt SETSTATE.HOURTENS (TIME_T.mk 12 0 0)).init_check = 0 ∧
    (∀ k ∈ [0x32, 0x39, 0x33], 0x30 ≤ k ∧ k ≤ 0x39) ∧
    (World.reset noErr).noError ∧
    ∃ l1 w1 added,
      run ([0x32, 0x39, 0x33].map Event.pass ++ [Event.pass C_PRESS])
        (editingAt SETSTATE.HOURTENS (TIME_T.mk 12 0 0)) (World.reset noErr)
        = Outcome.ret l1 w1 ∧
      l1.ui_state = UISTATE.TIME ∧ w1.timeOfDay = (World.reset noErr).timeOfDay ∧
      w1.trace = (World.reset noErr).trace ++ added ∧
      Ev.OSMutexPend ∉ added ∧ Ev.writeTimeOfDay ∉ added :=
  ⟨rfl, rfl, by decide, reset_noError,
    C7_cancel_keeps_time (editingAt SETSTATE.HOURTENS (TIME_T.mk 12 0 0)) (World.reset noErr)
      [0x32, 0x39, 0x33] rfl rfl (by decide) reset_noError⟩

/-- C8: in every display state `TIME`, whatever buffer and cursor an earlier session
left, and for every authoritative time t, the pass that receives the key # runs to
its end in `TIMESET` with the cursor at hour-tens and the buffer equal to t, and
leaves the authoritative time as it was. -/
theorem C8_enter_edit_snapshots_time (l : UILocals) (w : World)
    (hs : l.ui_state = UISTATE.TIME) (hi : l.init_check = 0) (h : w.noError) :
    ∃ l1 w1, UITask_body 0x23 l w = Outcome.ret l1 w1 ∧
      l1.ui_state = UISTATE.TIMESET ∧ l1.set_state = SETSTATE.HOURTENS ∧
      l1.buffertime = w.timeOfDay ∧ w1.timeOfDay = w.timeOfDay :=
  ⟨_, _, UITask_body_enter l w hs hi h, rfl, rfl, rfl, rfl⟩

/-- C8 from a display state that still holds the cursor second-ones and the buffer
23:59:59 of an earlier session. -/
theorem C8_enter_edit_snapshots_time_witness :
    (displayingWith SETSTATE.SECONDONES (TIME_T.mk 23 59 59)).ui_state = UISTATE.TIME ∧
    (displayingWith SETSTATE.SECONDONES (TIME_T.mk 23 59 59)).init_check = 0 ∧
    (World.reset noErr).noError ∧
    ∃ l1 w1, UITask_body 0x23 (displayingWith SETSTATE.SECONDONES (TIME_T.mk 23 59 59))
        (World.reset noErr) = Outcome.ret l1 w1 ∧
      l1.ui_state = UISTATE.TIMESET ∧ l1.set_state = SETSTATE.HOURTENS ∧
      l1.buffertime = (World.reset noErr).timeOfDay ∧
      w1.timeOfDay = (World.reset noErr).timeOfDay :=
  ⟨rfl, rfl, reset_noError,
    C8_enter_edit_snapshots_time (displayingWith SETSTATE.SECONDONES (TIME_T.mk 23 59 59))
      (World.reset noErr) rfl rfl reset_noError⟩

/-- C9: for every authoritative time t, from the display state `TIME` the keys #, 1,
5, 3, 0, CONFIRM, with no tick in between, run to their end and leave the
authoritative time at hour 15, minute 30 and the second of t. -/
theorem C9_scenario_15_30 (l : UILocals) (w : World)
    (hs : l.ui_state = UISTATE.TIME) (hi : l.init_check = 0) (h : w.noError) :
    ∃ l1 w1, run [Event.pass 0x23, Event.pass 0x31, Event.pass 0x35, Event.pass 0x33,
        Event.pass 0x30, Event.pass A_PRESS] l w = Outcome.ret l1 w1 ∧
      w1.timeOfDay = { hr := 15, min := 30, sec := w.timeOfDay.sec } := by
  obtain ⟨us, ss, ui, bt, ic⟩ := l
  simp only at hs hi
  subst hs hi
  have a1 : (w.timeOfDay.hr % 10 + 10) % 256 / 10 = 1 := by omega
  simp [run, step, UITask_body, UITask_input, UITask_switch, UITask_control,
      UITask_digit, UITask_time, TimeGet, TimeSet, OSMutexPend,
      OSMutexPost, osCall, spin, writeTime, readTime, emit, bind, Prog.bind, pure, h _,
      A_PRESS, C_PRESS, a1]
  refine ⟨_, _, ⟨rfl, rfl⟩, ?_⟩
  simp only [TIME_T.mk.injEq, and_true]
  constructor <;> omega

/-- C9 from the memory at reset. -/
theorem C9_scenario_15_30_witness :
    (displayingWith SETSTATE.HOURTENS (TIME_T.mk 0 0 0)).ui_state = UISTATE.TIME ∧
    (displayingWith SETSTATE.HOURTENS (TIME_T.mk 0 0 0)).init_check = 0 ∧
    (World.reset noErr).noError ∧
    ∃ l1 w1, run [Event.pass 0x23, Event.pass 0x31, Event.pass 0x35, Event.pass 0x33,
        Event.pass 0x30, Event.pass A_PRESS] (displayingWith SETSTATE.HOURTENS (TIME_T.mk 0 0 0))
        (World.reset noErr) = Outcome.ret l1 w1 ∧
      w1.timeOfDay = { hr := 15, min := 30, sec := (World.reset noErr).timeOfDay.sec } :=
  ⟨rfl, rfl, reset_noError,
    C9_scenario_15_30 (displayingWith SETSTATE.HOURTENS (TIME_T.mk 0 0 0)) (World.reset noErr)
      rfl rfl reset_noError⟩

/-- C10: for every value v and every prior state of the time store, `TimeSet(v)`
followed at once by `TimeGet` runs to its end and `TimeGet` returns exactly v. -/
theorem C10_get_after_set (v : TIME_T) (w : World) (h : w.noError) :
    ∃ w1, Prog.bind (TimeSet v) (fun _ => TimeGet) w = Outcome.ret v w1 ∧ w1.timeOfDay = v := by
  have h1 : Prog.bind (TimeSet v) (fun _ => TimeGet) w =
      TimeGet { w with timeOfDay := v, mutexHeld := false, calls := w.calls + 2,
                       trace := w.trace ++ [Ev.OSMutexPend, Ev.writeTimeOfDay, Ev.OSMutexPost] } := by
    simp only [Prog.bind, TimeSet_ok v w h]
  rw [h1]
  exact ⟨_, TimeGet_ok _ (fun i => h i), rfl⟩

/-- C10 for a value whose three fields are all out of range. -/
theorem C10_get_after_set_witness :
    (World.reset noErr).noError ∧
    ∃ w1, Prog.bind (TimeSet (TIME_T.mk 200 100 255)) (fun _ => TimeGet) (World.reset noErr)
        = Outcome.ret (TIME_T.mk 200 100 255) w1 ∧
      w1.timeOfDay = TIME_T.mk 200 100 255 :=
  ⟨reset_noError, C10_get_after_set (TIME_T.mk 200 100 255) (World.reset noErr) reset_noError⟩

/-- C11: after `TimeInit`, whatever the memory held before and with no tick processed,
the authoritative time is 12:00:00; the `TimeGet` that follows returns 12:00:00, and it
is the snapshot that the first pass of `UITask` stores in its buffer. -/
theorem C11_first_time_is_noon (w : World) (key g : Nat) (bt : TIME_T) (h : w.noError) :
    (∃ w1, TimeInit w = Outcome.ret () w1 ∧ w1.timeOfDay = { hr := 12, min := 0, sec := 0 }) ∧
    (∃ w2, Prog.bind TimeInit (fun _ => TimeGet) w
      = Outcome.ret { hr := 12, min := 0, sec := 0 } w2) ∧
    (∃ l3 w3, Prog.bind TimeInit (fun _ => UITask_input key (UITask_locals g bt)) w
      = Outcome.ret l3 w3 ∧ l3.buffertime = { hr := 12, min := 0, sec := 0 }) := by
  refine ⟨⟨_, TimeInit_ok w h, rfl⟩, ?_, ?_⟩
  · simp only [Prog.bind, TimeInit_ok w h]
    exact ⟨_, TimeGet_ok _ (fun i => h i)⟩
  · simp only [Prog.bind, TimeInit_ok w h]
    simp [UITask_input, UITask_locals, TimeGet, OSMutexPend, OSMutexPost, readTime, osCall,
      spin, emit, bind, Prog.bind, pure, h _]

/-- C11 from the memory at reset, with a kernel that never reports an error. -/
theorem C11_first_time_is_noon_witness :
    (World.reset noErr).noError ∧
    (∃ w1, TimeInit (World.reset noErr) = Outcome.ret () w1 ∧
      w1.timeOfDay = { hr := 12, min := 0, sec := 0 }) ∧
    (∃ w2, Prog.bind TimeInit (fun _ => TimeGet) (World.reset noErr)
      = Outcome.ret { hr := 12, min := 0, sec := 0 } w2) ∧
    (∃ l3 w3, Prog.bind TimeInit (fun _ => UITask_input 0 (UITask_locals 0 (TIME_T.mk 7 7 7)))
        (World.reset noErr)
      = Outcome.ret l3 w3 ∧ l3.buffertime = { hr := 12, min := 0, sec := 0 }) :=
  ⟨reset_noError, C11_first_time_is_noon (World.reset noErr) 0 0 (TIME_T.mk 7 7 7) reset_noError⟩

/-- C12, as the code has it: the machine starts in the edit state `TIMESET` at
hour-tens.  After the first pass (the value `user_input` happens to hold being neither
a control code nor a digit accepted at hour-tens) the buffer is the snapshot of the
authoritative time; then, with no # received, a digit key 0, 1 or 2 is written as the
tens digit of the hour of the buffer and moves the cursor, and a CONFIRM key calls
`TimeSet`, which writes `timeOfDay` with the buffer. -/
theorem C12_starts_in_edit_mode (w : World) (key g : Nat) (bt : TIME_T) (h : w.noError)
    (hg : g ≠ A_PRESS ∧ g ≠ C_PRESS ∧ g ≠ 0x30 ∧ g ≠ 0x31 ∧ g ≠ 0x32) :
    (UITask_locals g bt).ui_state = UISTATE.TIMESET ∧
    (UITask_locals g bt).set_state = SETSTATE.HOURTENS ∧
    ∃ l0 w0, UITask_body key (UITask_locals g bt) w = Outcome.ret l0 w0 ∧
      l0.ui_state = UISTATE.TIMESET ∧ l0.set_state = SETSTATE.HOURTENS ∧
      l0.buffertime = w.timeOfDay ∧ w0.timeOfDay = w.timeOfDay ∧
      (∀ d, d ≤ 2 → ∃ l1 w1, UITask_body (0x30 + d) l0 w0 = Outcome.ret l1 w1 ∧
        l1.buffertime = { hr := (w.timeOfDay.hr % 10 + d * 10) % 256, min := w.timeOfDay.min,
                          sec := w.timeOfDay.sec } ∧
        l1.set_state = SETSTATE.HOURONES) ∧
      (∃ l2 w2 added, UITask_body A_PRESS l0 w0 = Outcome.ret l2 w2 ∧
        w2.trace = w0.trace ++ added ∧ Ev.writeTimeOfDay ∈ added ∧
        w2.timeOfDay = l0.buffertime ∧ l2.ui_state = UISTATE.TIME) := by
  refine ⟨rfl, rfl, _, _, UITask_body_first key g bt w h hg, rfl, rfl, rfl, rfl, ?_, ?_⟩
  · intro d hd
    refine ⟨_, _, UITask_body_digit _ _ d rfl rfl (by omega) (h _), ?_, ?_⟩
    · have ha : tableAllows SETSTATE.HOURTENS w.timeOfDay d = true := by
        simp [tableAllows, hd]
      simp [editStep, ha, writeDigit256, writeTens]
    · have ha : tableAllows SETSTATE.HOURTENS w.timeOfDay d = true := by
        simp [tableAllows, hd]
      simp [editStep, ha, nextSlot]
  · refine ⟨_, _, _, UITask_body_confirm _ _ rfl rfl (fun i => h i), rfl, ?_, rfl, rfl⟩
    simp

/-- C12 from the memory at reset after `TimeInit`, with `user_input` holding 0. -/
theorem C12_starts_in_edit_mode_witness :
    (World.reset noErr).noError ∧
    ((0 : Nat) ≠ A_PRESS ∧ (0 : Nat) ≠ C_PRESS ∧ (0 : Nat) ≠ 0x30 ∧ (0 : Nat) ≠ 0x31 ∧
      (0 : Nat) ≠ 0x32) ∧
    (UITask_locals 0 (TIME_T.mk 0 0 0)).ui_state = UISTATE.TIMESET ∧
    (UITask_locals 0 (TIME_T.mk 0 0 0)).set_state = SETSTATE.HOURTENS ∧
    ∃ l0 w0, UITask_body 0 (UITask_locals 0 (TIME_T.mk 0 0 0)) (World.reset noErr)
        = Outcome.ret l0 w0 ∧
      l0.ui_state = UISTATE.TIMESET ∧ l0.set_state = SETSTATE.HOURTENS ∧
      l0.buffertime = (World.reset noErr).timeOfDay ∧
      w0.timeOfDay = (World.reset noErr).timeOfDay ∧
      (∀ d, d ≤ 2 → ∃ l1 w1, UITask_body (0x30 + d) l0 w0 = Outcome.ret l1 w1 ∧
        l1.buffertime = { hr := ((World.reset noErr).timeOfDay.hr % 10 + d * 10) % 256,
                          min := (World.reset noErr).timeOfDay.min,
                          sec := (World.reset noErr).timeOfDay.sec } ∧
        l1.set_state = SETSTATE.HOURONES) ∧
      (∃ l2 w2 added, UITask_body A_PRESS l0 w0 = Outcome.ret l2 w2 ∧
        w2.trace = w0.trace ++ added ∧ Ev.writeTimeOfDay ∈ added ∧
        w2.timeOfDay = l0.buffertime ∧ l2.ui_state = UISTATE.TIME) :=
  ⟨reset_noError, by decide,
    C12_starts_in_edit_mode (World.reset noErr) 0 0 (TIME_T.mk 0 0 0) reset_noError (by decide)⟩

/-- C12, against the claim: from reset, the first pass leaves the machine in `TIMESET`
with the buffer 12:00:00 and no # received; the digit key 2 then changes the hour of
the buffer to 22; and a CONFIRM key after one tick (time 12:00:01) calls `TimeSet`,
which puts the authoritative time back to the buffer 12:00:00. -/
theorem C12_initial_state_is_editing :
    (boot 0 (TIME_T.mk 0 0 0) [Event.pass 0] (World.reset noErr)).value
      = some { ui_state := UISTATE.TIMESET, set_state := SETSTATE.HOURTENS, user_input := 0,
               buffertime := TIME_T.mk 12 0 0, init_check := 0 } ∧
    (boot 0 (TIME_T.mk 0 0 0) [Event.pass 0, Event.pass 0x32] (World.reset noErr)).value
      = some { ui_state := UISTATE.TIMESET, set_state := SETSTATE.HOURONES, user_input := 20,
               buffertime := TIME_T.mk 22 0 0, init_check := 0 } ∧
    (boot 0 (TIME_T.mk 0 0 0) [Event.pass 0, Event.tick] (World.reset noErr)).world.timeOfDay
      = TIME_T.mk 12 0 1 ∧
    (boot 0 (TIME_T.mk 0 0 0) [Event.pass 0, Event.tick, Event.pass A_PRESS]
      (World.reset noErr)).world.timeOfDay = TIME_T.mk 12 0 0 := by
  refine ⟨?_, ?_, ?_, ?_⟩ <;>
    simp [boot, run, step, UITask_body, UITask_input, UITask_switch, UITask_control,
      UITask_digit, UITask_time, UITask_locals, TimeInit, TimeGet, TimeSet, timeTask_iter,
      advance, OSMutexPend, OSMutexPost, osCall, spin, writeTime, readTime, emit, bind,
      Prog.bind, pure, World.reset, noErr, Outcome.world, Outcome.value, OS_ERR_NONE, A_PRESS,
      C_PRESS]

/-- C13, as the code has it: in every `TIMESET` state, a key that is neither CONFIRM nor
CANCEL nor a digit allowed at the cursor slot leaves the machine in `TIMESET` with the
cursor, the buffer and the authoritative time unchanged, and the pass makes exactly
one display call, the `LcdDispTime` that renders the unchanged buffer. -/
theorem C13_ignored_key_rerenders (l : UILocals) (w : World) (k : Nat)
    (hs : l.ui_state = UISTATE.TIMESET) (hi : l.init_check = 0)
    (he : w.os_err w.calls = OS_ERR_NONE) (hk : k < 256)
    (hA : k ≠ A_PRESS) (hC : k ≠ C_PRESS)
    (hrej : ∀ d, d ≤ 9 → k = 0x30 + d → tableAllows l.set_state l.buffertime d = false) :
    ∃ l1 w1 added, UITask_body k l w = Outcome.ret l1 w1 ∧
      l1.ui_state = UISTATE.TIMESET ∧ l1.set_state = l.set_state ∧
      l1.buffertime = l.buffertime ∧ w1.timeOfDay = w.timeOfDay ∧
      w1.trace = w.trace ++ added ∧
      added.filter Ev.isDisplay =
        [Ev.LcdDispTime ROW2 COLUMN9 Layer.TIMESETLAYER l.buffertime.hr l.buffertime.min
          l.buffertime.sec] := by
  by_cases hdig : 0x30 ≤ k ∧ k ≤ 0x39
  · have hkd : k = 0x30 + (k - 0x30) := by omega
    have ha := hrej (k - 0x30) (by omega) hkd
    have hstep := UITask_body_digit l w (k - 0x30) hs hi (by omega) he
    rw [← hkd] at hstep
    refine ⟨_, _, _, hstep, ?_, ?_, ?_, rfl, rfl, ?_⟩
    · rw [editStep_ui_state]
      exact hs
    · simp [editStep, ha]
    · simp [editStep, ha]
    · simp [editCalls, editStep, ha, Ev.isDisplay]
  · refine ⟨_, _, _, UITask_body_other l w k hs hi he hk hA hC (by omega), hs, rfl, rfl, rfl,
      rfl, ?_⟩
    simp [Ev.isDisplay]

/-- C13 for the digit 9 at hour-tens, which the table does not allow there. -/
theorem C13_ignored_key_rerenders_witness :
    (editingAt SETSTATE.HOURTENS (TIME_T.mk 12 0 0)).ui_state = UISTATE.TIMESET ∧
    (editingAt SETSTATE.HOURTENS (TIME_T.mk 12 0 0)).init_check = 0 ∧
    (World.reset noErr).os_err (World.reset noErr).calls = OS_ERR_NONE ∧
    0x39 < 256 ∧ 0x39 ≠ A_PRESS ∧ 0x39 ≠ C_PRESS ∧
    (∀ d, d ≤ 9 → 0x39 = 0x30 + d →
      tableAllows (editingAt SETSTATE.HOURTENS (TIME_T.mk 12 0 0)).set_state
        (editingAt SETSTATE.HOURTENS (TIME_T.mk 12 0 0)).buffertime d = false) ∧
    ∃ l1 w1 added, UITask_body 0x39 (editingAt SETSTATE.HOURTENS (TIME_T.mk 12 0 0))
        (World.reset noErr) = Outcome.ret l1 w1 ∧
      l1.ui_state = UISTATE.TIMESET ∧
      l1.set_state = (editingAt SETSTATE.HOURTENS (TIME_T.mk 12 0 0)).set_state ∧
      l1.buffertime = (editingAt SETSTATE.HOURTENS (TIME_T.mk 12 0 0)).buffertime ∧
      w1.timeOfDay = (World.reset noErr).timeOfDay ∧
      w1.trace = (World.reset noErr).trace ++ added ∧
      added.filter Ev.isDisplay =
        [Ev.LcdDispTime ROW2 COLUMN9 Layer.TIMESETLAYER
          (editingAt SETSTATE.HOURTENS (TIME_T.mk 12 0 0)).buffertime.hr
          (editingAt SETSTATE.HOURTENS (TIME_T.mk 12 0 0)).buffertime.min
          (editingAt SETSTATE.HOURTENS (TIME_T.mk 12 0 0)).buffertime.sec] :=
  have hrej : ∀ d, d ≤ 9 → 0x39 = 0x30 + d →
      tableAllows (editingAt SETSTATE.HOURTENS (TIME_T.mk 12 0 0)).set_state
        (editingAt SETSTATE.HOURTENS (TIME_T.mk 12 0 0)).buffertime d = false := by
    intro d _ hd
    have : d = 9 := by omega
    subst this
    decide
  ⟨rfl, rfl, rfl, by decide, by decide, by decide, hrej,
    C13_ignored_key_rerenders (editingAt SETSTATE.HOURTENS (TIME_T.mk 12 0 0))
      (World.reset noErr) 0x39 rfl rfl rfl (by decide) (by decide) (by decide) hrej⟩

/-- C13, against the claim: in `TIMESET` at hour-tens with the buffer 12:00:00, the
digit 9, which the table does not allow there, makes the pass issue a display call,
`LcdDispTime`. -/
theorem C13_rejected_digit_is_rendered :
    tableAllows SETSTATE.HOURTENS (TIME_T.mk 12 0 0) 9 = false ∧
    (UITask_body 0x39 (editingAt SETSTATE.HOURTENS (TIME_T.mk 12 0 0))
      (World.reset noErr)).world.trace
      = [Ev.DB 0 false, Ev.KeyPend, Ev.DB 0 true,
         Ev.LcdDispTime ROW2 COLUMN9 Layer.TIMESETLAYER 12 0 0] ∧
    ((UITask_body 0x39 (editingAt SETSTATE.HOURTENS (TIME_T.mk 12 0 0))
      (World.reset noErr)).world.trace.any Ev.isDisplay) = true := by
  refine ⟨by decide, ?_, ?_⟩ <;>
    simp [UITask_body, UITask_input, UITask_switch, UITask_control, UITask_digit, editingAt,
      osCall, spin, emit, bind, Prog.bind, pure, World.reset, noErr, Outcome.world, OS_ERR_NONE,
      A_PRESS, C_PRESS, Ev.isDisplay]

/-- C14: for every state of `UITask` and every key code, whatever the kernel reports, a
pass leaves the authoritative time as it was unless the machine is in `TIMESET` and
the key is CONFIRM; `TimeGet` and `TimePend` leave it as it was. -/
theorem C14_time_written_only_by_commit (l : UILocals) (w : World) (k : Nat) (hk : k < 256)
    (hn : ¬ (l.ui_state = UISTATE.TIMESET ∧ k = A_PRESS)) :
    (UITask_body k l w).world.timeOfDay = w.timeOfDay ∧
    (TimeGet w).world.timeOfDay = w.timeOfDay ∧
    (TimePend w).world.timeOfDay = w.timeOfDay := by
  refine ⟨?_, keepsTime_TimeGet w, keepsTime_TimePend w⟩
  obtain ⟨hin, hret⟩ := UITask_input_spec k l w
  simp only [UITask_body, bind, Prog.bind]
  cases hp : UITask_input k l w with
  | halt w1 =>
    rw [hp] at hin
    exact hin
  | ret l1 w1 =>
    rw [hp] at hin
    simp only [Outcome.world] at hin
    obtain ⟨hu, hb, hui⟩ := hret l1 w1 hp
    rcases UITask_switch_world l1 w1 with h | ⟨hs, hA, h⟩
    · exact h.trans hin
    · by_cases hi : l.init_check = 0
      · exfalso
        apply hn
        refine ⟨hu ▸ hs, ?_⟩
        rw [hui hi, Nat.mod_eq_of_lt hk] at hA
        exact hA
      · simp only
        rw [h, hb hi]
        exact hin

/-- C14 for the time store at reset, in `TIMESET` on the digit key 5. -/
theorem C14_time_written_only_by_commit_witness :
    0x35 < 256 ∧
    ¬ ((editingAt SETSTATE.MINUTETENS (TIME_T.mk 12 0 0)).ui_state = UISTATE.TIMESET ∧
      0x35 = A_PRESS) ∧
    (UITask_body 0x35 (editingAt SETSTATE.MINUTETENS (TIME_T.mk 12 0 0))
      (World.reset noErr)).world.timeOfDay = (World.reset noErr).timeOfDay ∧
    (TimeGet (World.reset noErr)).world.timeOfDay = (World.reset noErr).timeOfDay ∧
    (TimePend (World.reset noErr)).world.timeOfDay = (World.reset noErr).timeOfDay :=
  ⟨by decide, by decide,
    C14_time_written_only_by_commit (editingAt SETSTATE.MINUTETENS (TIME_T.mk 12 0 0))
      (World.reset noErr) 0x35 (by decide) (by decide)⟩

/-- C15, on the code: `TimePend` reads `timeOfDay` without pending on the mutex.  Called
with the time at 12:00:01, the mutex free and no error reported, it returns 12:00:01
after two calls, the pend on `timeChgFlag` and the read; the read happens while the
mutex is not held.  `TimeGet` in the same memory does read under the mutex. -/
theorem C15_TimePend_reads_unlocked :
    (TimePend (World.mk (TIME_T.mk 12 0 1) false noErr 0 [])).value = some (TIME_T.mk 12 0 1) ∧
    (TimePend (World.mk (TIME_T.mk 12 0 1) false noErr 0 [])).world.trace
      = [Ev.OSSemPend Sem.timeChgFlag, Ev.readTimeOfDay] ∧
    guardedFrom false (TimePend (World.mk (TIME_T.mk 12 0 1) false noErr 0 [])).world.trace
      = false ∧
    (TimePend (World.mk (TIME_T.mk 12 0 1) false noErr 0 [])).world.mutexHeld = false ∧
    guardedFrom false (TimeGet (World.mk (TIME_T.mk 12 0 1) false noErr 0 [])).world.trace
      = true := by
  refine ⟨?_, ?_, ?_, ?_, ?_⟩ <;>
    simp [TimePend, TimeGet, OSMutexPend, OSMutexPost, osCall, spin, readTime, bind, Prog.bind,
      pure, noErr, Outcome.world, Outcome.value, OS_ERR_NONE, guardedFrom]

/-- C16, as the code has it: in every iteration of `timeTask` the post of `timeChgFlag`,
when it is reached, happens while the mutex is held, whatever the kernel reports; and
when the kernel reports no error the calls are, in order: pend on the tick semaphore,
pend on the mutex, read and write of `timeOfDay`, post of `timeChgFlag`, and only then
post of the mutex. -/
theorem C16_post_before_release (w : World) :
    (∃ added, (timeTask_iter w).world.trace = w.trace ++ added ∧
      postsInsideLock false added = true) ∧
    (w.noError → ∃ w1, timeTask_iter w = Outcome.ret () w1 ∧
      w1.trace = w.trace ++ [Ev.DB 3 false, Ev.OSSemPend Sem.timeSecFlag, Ev.OSMutexPend,
        Ev.DB 3 true, Ev.readTimeOfDay, Ev.writeTimeOfDay, Ev.OSSemPost Sem.timeChgFlag,
        Ev.OSMutexPost] ∧
      w1.timeOfDay = advance w.timeOfDay ∧ w1.mutexHeld = false) := by
  constructor
  · obtain ⟨added, h1, h2, _⟩ := timeTask_iter_trace w
    exact ⟨added, h1, h2⟩
  · intro h
    exact ⟨_, timeTask_iter_ok w h, rfl, rfl, rfl⟩

/-- C16 from the memory at reset. -/
theorem C16_post_before_release_witness :
    (World.reset noErr).noError ∧
    (∃ added, (timeTask_iter (World.reset noErr)).world.trace
        = (World.reset noErr).trace ++ added ∧
      postsInsideLock false added = true) ∧
    ∃ w1, timeTask_iter (World.reset noErr) = Outcome.ret () w1 ∧
      w1.trace = (World.reset noErr).trace ++ [Ev.DB 3 false, Ev.OSSemPend Sem.timeSecFlag,
        Ev.OSMutexPend, Ev.DB 3 true, Ev.readTimeOfDay, Ev.writeTimeOfDay,
        Ev.OSSemPost Sem.timeChgFlag, Ev.OSMutexPost] ∧
      w1.timeOfDay = advance (World.reset noErr).timeOfDay ∧ w1.mutexHeld = false :=
  ⟨reset_noError, (C16_post_before_release (World.reset noErr)).1,
    (C16_post_before_release (World.reset noErr)).2 reset_noError⟩

/-- C16, against the claim: in the iteration of `timeTask` from the memory at reset the
post of `timeChgFlag` comes before the post of the mutex, so it happens while the
mutex is held. -/
theorem C16_post_while_lock_held :
    (timeTask_iter (World.reset noErr)).world.trace
      = [Ev.DB 3 false, Ev.OSSemPend Sem.timeSecFlag, Ev.OSMutexPend, Ev.DB 3 true,
         Ev.readTimeOfDay, Ev.writeTimeOfDay, Ev.OSSemPost Sem.timeChgFlag, Ev.OSMutexPost] ∧
    postsOutsideLock false (timeTask_iter (World.reset noErr)).world.trace = false := by
  refine ⟨?_, ?_⟩ <;>
    simp [timeTask_iter, OSMutexPend, OSMutexPost, osCall, spin, readTime, writeTime, emit,
      bind, Prog.bind, World.reset, noErr, Outcome.world, OS_ERR_NONE, postsOutsideLock]

/-- C17, as the code has it: the change notification is counted, not single-slot.  When
two ticks complete with no notification pending before them and no `TimePend` in
between, and the kernel reports no error, the count of `timeChgFlag` is two; the two
calls of `TimePend` that follow both return without blocking, each with the time after
both advances, and bring the count to one and to zero; the third call blocks, and
after a further tick it returns, with the time after three advances. -/
theorem C17_notifications_are_counted (w : World) (h : w.noError)
    (hc : semCount Sem.timeChgFlag w.trace = 0) :
    ∃ w2 w3 w4, Prog.bind tickOnce (fun _ => tickOnce) w = Outcome.ret () w2 ∧
      w2.timeOfDay = advance (advance w.timeOfDay) ∧
      semCount Sem.timeChgFlag w2.trace = 2 ∧
      TimePend_count w2 = some (Outcome.ret (advance (advance w.timeOfDay)) w3) ∧
      semCount Sem.timeChgFlag w3.trace = 1 ∧
      TimePend_count w3 = some (Outcome.ret (advance (advance w.timeOfDay)) w4) ∧
      semCount Sem.timeChgFlag w4.trace = 0 ∧
      TimePend_count w4 = none ∧
      ∃ w5 w6, tickOnce w4 = Outcome.ret () w5 ∧
        TimePend_count w5
          = some (Outcome.ret (advance (advance (advance w.timeOfDay))) w6) := by
  have h1 := tickOnce_ok w h
  have h2 := tickOnce_ok
    { w with timeOfDay := advance w.timeOfDay, mutexHeld := false, calls := w.calls + 5,
             trace := w.trace ++ [Ev.OSSemPost Sem.timeSecFlag, Ev.DB 3 false,
               Ev.OSSemPend Sem.timeSecFlag, Ev.OSMutexPend, Ev.DB 3 true, Ev.readTimeOfDay,
               Ev.writeTimeOfDay, Ev.OSSemPost Sem.timeChgFlag, Ev.OSMutexPost] }
    (fun i => h i)
  have h3 := TimePend_ok
    { w with timeOfDay := advance (advance w.timeOfDay), mutexHeld := false,
             calls := w.calls + 5 + 5,
             trace := w.trace ++ [Ev.OSSemPost Sem.timeSecFlag, Ev.DB 3 false,
               Ev.OSSemPend Sem.timeSecFlag, Ev.OSMutexPend, Ev.DB 3 true, Ev.readTimeOfDay,
               Ev.writeTimeOfDay, Ev.OSSemPost Sem.timeChgFlag, Ev.OSMutexPost] ++
               [Ev.OSSemPost Sem.timeSecFlag, Ev.DB 3 false,
               Ev.OSSemPend Sem.timeSecFlag, Ev.OSMutexPend, Ev.DB 3 true, Ev.readTimeOfDay,
               Ev.writeTimeOfDay, Ev.OSSemPost Sem.timeChgFlag, Ev.OSMutexPost] }
    (fun i => h i)
  have h4 := TimePend_ok
    { w with timeOfDay := advance (advance w.timeOfDay), mutexHeld := false,
             calls := w.calls + 5 + 5 + 1,
             trace := w.trace ++ [Ev.OSSemPost Sem.timeSecFlag, Ev.DB 3 false,
               Ev.OSSemPend Sem.timeSecFlag, Ev.OSMutexPend, Ev.DB 3 true, Ev.readTimeOfDay,
               Ev.writeTimeOfDay, Ev.OSSemPost Sem.timeChgFlag, Ev.OSMutexPost] ++
               [Ev.OSSemPost Sem.timeSecFlag, Ev.DB 3 false,
               Ev.OSSemPend Sem.timeSecFlag, Ev.OSMutexPend, Ev.DB 3 true, Ev.readTimeOfDay,
               Ev.writeTimeOfDay, Ev.OSSemPost Sem.timeChgFlag, Ev.OSMutexPost] ++
               [Ev.OSSemPend Sem.timeChgFlag, Ev.readTimeOfDay] }
    (fun i => h i)
  refine ⟨
    { w with timeOfDay := advance (advance w.timeOfDay), mutexHeld := false,
             calls := w.calls + 5 + 5,
             trace := w.trace ++ [Ev.OSSemPost Sem.timeSecFlag, Ev.DB 3 false,
               Ev.OSSemPend Sem.timeSecFlag, Ev.OSMutexPend, Ev.DB 3 true, Ev.readTimeOfDay,
               Ev.writeTimeOfDay, Ev.OSSemPost Sem.timeChgFlag, Ev.OSMutexPost] ++
               [Ev.OSSemPost Sem.timeSecFlag, Ev.DB 3 false,
               Ev.OSSemPend Sem.timeSecFlag, Ev.OSMutexPend, Ev.DB 3 true, Ev.readTimeOfDay,
               Ev.writeTimeOfDay, Ev.OSSemPost Sem.timeChgFlag, Ev.OSMutexPost] },
    { w with timeOfDay := advance (advance w.timeOfDay), mutexHeld := false,
             calls := w.calls + 5 + 5 + 1,
             trace := w.trace ++ [Ev.OSSemPost Sem.timeSecFlag, Ev.DB 3 false,
               Ev.OSSemPend Sem.timeSecFlag, Ev.OSMutexPend, Ev.DB 3 true, Ev.readTimeOfDay,
               Ev.writeTimeOfDay, Ev.OSSemPost Sem.timeChgFlag, Ev.OSMutexPost] ++
               [Ev.OSSemPost Sem.timeSecFlag, Ev.DB 3 false,
               Ev.OSSemPend Sem.timeSecFlag, Ev.OSMutexPend, Ev.DB 3 true, Ev.readTimeOfDay,
               Ev.writeTimeOfDay, Ev.OSSemPost Sem.timeChgFlag, Ev.OSMutexPost] ++
               [Ev.OSSemPend Sem.timeChgFlag, Ev.readTimeOfDay] },
    { w with timeOfDay := advance (advance w.timeOfDay), mutexHeld := false,
             calls := w.calls + 5 + 5 + 1 + 1,
             trace := w.trace ++ [Ev.OSSemPost Sem.timeSecFlag, Ev.DB 3 false,
               Ev.OSSemPend Sem.timeSecFlag, Ev.OSMutexPend, Ev.DB 3 true, Ev.readTimeOfDay,
               Ev.writeTimeOfDay, Ev.OSSemPost Sem.timeChgFlag, Ev.OSMutexPost] ++
               [Ev.OSSemPost Sem.timeSecFlag, Ev.DB 3 false,
               Ev.OSSemPend Sem.timeSecFlag, Ev.OSMutexPend, Ev.DB 3 true, Ev.readTimeOfDay,
               Ev.writeTimeOfDay, Ev.OSSemPost Sem.timeChgFlag, Ev.OSMutexPost] ++
               [Ev.OSSemPend Sem.timeChgFlag, Ev.readTimeOfDay] ++
               [Ev.OSSemPend Sem.timeChgFlag, Ev.readTimeOfDay] },
    ?_, rfl, ?_, ?_, ?_, ?_, ?_, ?_, ?_⟩
  · simp only [Prog.bind, h1]
    exact h2
  · simp [semCount_append, hc, semStep]
  · simp only [TimePend_count]
    rw [if_neg (by simp [semCount_append, hc, semStep])]
    exact congrArg some h3
  · simp [semCount_append, hc, semStep]
  · simp only [TimePend_count]
    rw [if_neg (by simp [semCount_append, hc, semStep])]
    exact congrArg some h4
  · simp [semCount_append, hc, semStep]
  · simp only [TimePend_count]
    rw [if_pos (by simp [semCount_append, hc, semStep])]
  · exact TimePend_after_tick _ (fun i => h i) (by simp [semCount_append, hc, semStep])

/-- C17 from the memory at reset. -/
theorem C17_notifications_are_counted_witness :
    (World.reset noErr).noError ∧
    semCount Sem.timeChgFlag (World.reset noErr).trace = 0 ∧
    ∃ w2 w3 w4, Prog.bind tickOnce (fun _ => tickOnce) (World.reset noErr) = Outcome.ret () w2 ∧
      w2.timeOfDay = advance (advance (World.reset noErr).timeOfDay) ∧
      semCount Sem.timeChgFlag w2.trace = 2 ∧
      TimePend_count w2
        = some (Outcome.ret (advance (advance (World.reset noErr).timeOfDay)) w3) ∧
      semCount Sem.timeChgFlag w3.trace = 1 ∧
      TimePend_count w3
        = some (Outcome.ret (advance (advance (World.reset noErr).timeOfDay)) w4) ∧
      semCount Sem.timeChgFlag w4.trace = 0 ∧
      TimePend_count w4 = none ∧
      ∃ w5 w6, tickOnce w4 = Outcome.ret () w5 ∧
        TimePend_count w5
          = some (Outcome.ret (advance (advance (advance (World.reset noErr).timeOfDay))) w6) :=
  ⟨reset_noError, rfl,
    C17_notifications_are_counted (World.reset noErr) reset_noError rfl⟩

/-- C17, against the claim: after `TimeInit` and two ticks with no `TimePend` in
between, the time is 12:00:02 and the count of `timeChgFlag` is two, more than one; the
first `TimePend` returns 12:00:02 without blocking and so does the second, which the
claim says blocks. -/
theorem C17_two_wakes_after_two_ticks :
    afterTwoTicks.timeOfDay = TIME_T.mk 12 0 2 ∧
    semCount Sem.timeChgFlag afterTwoTicks.trace = 2 ∧
    (TimePend_count afterTwoTicks).isSome = true ∧
    (TimePend afterTwoTicks).value = some (TIME_T.mk 12 0 2) ∧
    semCount Sem.timeChgFlag (TimePend afterTwoTicks).world.trace = 1 ∧
    (TimePend_count (TimePend afterTwoTicks).world).isSome = true ∧
    (TimePend (TimePend afterTwoTicks).world).value = some (TIME_T.mk 12 0 2) := by
  refine ⟨?_, ?_, ?_, ?_, ?_, ?_, ?_⟩ <;>
    simp [afterTwoTicks, TimePend_count, semCount, semStep, tickOnce, RTC_Seconds_IRQHandler,
      timeTask_iter, TimeInit, TimePend, advance, OSMutexPend, OSMutexPost, osCall, spin,
      readTime, writeTime, emit, bind, Prog.bind, pure, World.reset, noErr, Outcome.world,
      Outcome.value, OS_ERR_NONE]

/-- C18: when the pend on the mutex reports an error, `TimeSet` and `TimeGet` halt right
after it: `timeOfDay` is neither written nor read, the mutex is not taken and `TimeGet`
returns no value.  When, in an iteration of `timeTask`, the pend on the tick semaphore
succeeds and the pend on the mutex reports an error, the iteration halts right after
it and `timeOfDay` is not advanced. -/
theorem C18_lock_error_halts (v : TIME_T) (w : World) :
    (w.os_err w.calls ≠ OS_ERR_NONE →
      TimeSet v w = Outcome.halt
        { w with calls := w.calls + 1, trace := w.trace ++ [Ev.OSMutexPend] } ∧
      TimeGet w = Outcome.halt
        { w with calls := w.calls + 1, trace := w.trace ++ [Ev.OSMutexPend] } ∧
      (TimeSet v w).world.timeOfDay = w.timeOfDay ∧ (TimeGet w).value = none) ∧
    (w.os_err w.calls = OS_ERR_NONE → w.os_err (w.calls + 1) ≠ OS_ERR_NONE →
      timeTask_iter w = Outcome.halt
        { w with calls := w.calls + 2,
                 trace := w.trace ++ [Ev.DB 3 false, Ev.OSSemPend Sem.timeSecFlag,
                   Ev.OSMutexPend] } ∧
      (timeTask_iter w).world.timeOfDay = w.timeOfDay) := by
  constructor
  · intro h0
    refine ⟨?_, ?_, ?_, ?_⟩ <;>
      simp [TimeSet, TimeGet, OSMutexPend, OSMutexPost, osCall, spin, readTime, writeTime, bind,
        Prog.bind, pure, Outcome.world, Outcome.value, h0]
  · intro h0 h1
    refine ⟨?_, ?_⟩ <;>
      simp [timeTask_iter, OSMutexPend, OSMutexPost, osCall, spin, readTime, writeTime, emit,
        bind, Prog.bind, Outcome.world, h0, h1]

/-- C18 from the memory at reset holding 12:34:56, with a kernel that reports an error
at its first call (for `TimeSet` and `TimeGet`) or at its second call (for `timeTask`). -/
theorem C18_lock_error_halts_witness :
    (World.reset (errAt 0)).os_err (World.reset (errAt 0)).calls ≠ OS_ERR_NONE ∧
    (TimeSet (TIME_T.mk 12 34 56) (World.reset (errAt 0))).world.timeOfDay
      = (World.reset (errAt 0)).timeOfDay ∧
    (TimeGet (World.reset (errAt 0))).value = none ∧
    (World.reset (errAt 1)).os_err (World.reset (errAt 1)).calls = OS_ERR_NONE ∧
    (World.reset (errAt 1)).os_err ((World.reset (errAt 1)).calls + 1) ≠ OS_ERR_NONE ∧
    (timeTask_iter (World.reset (errAt 1))).world.timeOfDay = (World.reset (errAt 1)).timeOfDay :=
  ⟨by decide,
    ((C18_lock_error_halts (TIME_T.mk 12 34 56) (World.reset (errAt 0))).1 (by decide)).2.2.1,
    ((C18_lock_error_halts (TIME_T.mk 12 34 56) (World.reset (errAt 0))).1 (by decide)).2.2.2,
    by decide, by decide,
    ((C18_lock_error_halts (TIME_T.mk 12 34 56) (World.reset (errAt 1))).2 (by decide)
      (by decide)).2⟩

/-- C19, as the code has it: when `timeTask` halts because the post of `timeChgFlag`
reported an error (the two pends before it having succeeded), it halts holding the
mutex, with the advanced time already written: the post comes before the release. -/
theorem C19_post_error_halts_holding_lock (w : World)
    (h0 : w.os_err w.calls = OS_ERR_NONE) (h1 : w.os_err (w.calls + 1) = OS_ERR_NONE)
    (h2 : w.os_err (w.calls + 2) ≠ OS_ERR_NONE) :
    timeTask_iter w = Outcome.halt
      { w with timeOfDay := advance w.timeOfDay, mutexHeld := true, calls := w.calls + 3,
               trace := w.trace ++ [Ev.DB 3 false, Ev.OSSemPend Sem.timeSecFlag,
                 Ev.OSMutexPend, Ev.DB 3 true, Ev.readTimeOfDay, Ev.writeTimeOfDay,
                 Ev.OSSemPost Sem.timeChgFlag] } ∧
    (timeTask_iter w).world.mutexHeld = true := by
  have h2a : w.os_err (w.calls + 1 + 1) ≠ OS_ERR_NONE := h2
  constructor <;>
    simp [timeTask_iter, OSMutexPend, OSMutexPost, osCall, spin, readTime, writeTime, emit,
      bind, Prog.bind, Outcome.world, h0, h1, h2, h2a]

/-- C19 from the memory at reset, with a kernel that reports an error at its third call,
the post of `timeChgFlag`. -/
theorem C19_post_error_halts_holding_lock_witness :
    (World.reset (errAt 2)).os_err (World.reset (errAt 2)).calls = OS_ERR_NONE ∧
    (World.reset (errAt 2)).os_err ((World.reset (errAt 2)).calls + 1) = OS_ERR_NONE ∧
    (World.reset (errAt 2)).os_err ((World.reset (errAt 2)).calls + 2) ≠ OS_ERR_NONE ∧
    (timeTask_iter (World.reset (errAt 2))).world.mutexHeld = true :=
  ⟨by decide, by decide, by decide,
    (C19_post_error_halts_holding_lock (World.reset (errAt 2)) (by decide) (by decide)
      (by decide)).2⟩

/-- C19, against the claim: with a kernel that reports an error at the post of
`timeChgFlag`, the iteration of `timeTask` from the memory at reset halts (it returns
no value) after that post, and the mutex is held in the state in which it halts. -/
theorem C19_halts_with_lock_held :
    (timeTask_iter (World.reset (errAt 2))).value = none ∧
    (timeTask_iter (World.reset (errAt 2))).world.trace
      = [Ev.DB 3 false, Ev.OSSemPend Sem.timeSecFlag, Ev.OSMutexPend, Ev.DB 3 true,
         Ev.readTimeOfDay, Ev.writeTimeOfDay, Ev.OSSemPost Sem.timeChgFlag] ∧
    (timeTask_iter (World.reset (errAt 2))).world.mutexHeld = true := by
  refine ⟨?_, ?_, ?_⟩ <;>
    simp [timeTask_iter, OSMutexPend, OSMutexPost, osCall, spin, readTime, writeTime, emit,
      bind, Prog.bind, World.reset, errAt, Outcome.world, Outcome.value, OS_ERR_NONE]

/-- C20: for every in-range authoritative time at the moment # is received in `TIME`,
and every sequence of key codes other than CONFIRM and CANCEL received after it, the
machine is in `TIMESET` after every one of these keys and the edit buffer then has
min <= 59, sec <= 59 and hr <= 29, and hr <= 23 when the cursor is at a slot other
than hour-ones. -/
theorem C20_edit_buffer_bounds (l : UILocals) (w : World) (ks : List Nat)
    (hs : l.ui_state = UISTATE.TIME) (hi : l.init_check = 0) (hv : w.timeOfDay.valid)
    (hks : ∀ k ∈ ks, k < 256 ∧ k ≠ A_PRESS ∧ k ≠ C_PRESS) (h : w.noError) (n : Nat) :
    ∃ l1 w1, run (Event.pass 0x23 :: (ks.take n).map Event.pass) l w = Outcome.ret l1 w1 ∧
      l1.ui_state = UISTATE.TIMESET ∧
      l1.buffertime.min ≤ 59 ∧ l1.buffertime.sec ≤ 59 ∧ l1.buffertime.hr ≤ 29 ∧
      (l1.set_state ≠ SETSTATE.HOURONES → l1.buffertime.hr ≤ 23) := by
  obtain ⟨hv1, hv2, hv3⟩ := hv
  have henter := UITask_body_enter l w hs hi h
  obtain ⟨l1, w1, hrun, h1, h2⟩ := run_editInv (ks.take n)
    { l with ui_state := UISTATE.TIMESET, set_state := SETSTATE.HOURTENS, user_input := 0x23,
             buffertime := w.timeOfDay }
    { w with mutexHeld := false, calls := w.calls + 3,
             trace := w.trace ++ [Ev.DB 0 false, Ev.KeyPend, Ev.DB 0 true, Ev.OSMutexPend,
               Ev.readTimeOfDay, Ev.OSMutexPost, Ev.LcdShowLayer Layer.TIMESETLAYER,
               Ev.LcdDispTime ROW2 COLUMN9 Layer.TIMESETLAYER w.timeOfDay.hr w.timeOfDay.min
                 w.timeOfDay.sec,
               Ev.LcdCursor ROW2 COLUMN9 Layer.TIMESETLAYER CURSORON BLINKON] }
    rfl hi ⟨hv2, hv3, by simp only; omega, fun _ => hv1⟩
    (fun k hk => hks k (List.mem_of_mem_take hk)) (fun i => h i)
  refine ⟨l1, w1, ?_, h1, h2⟩
  simp only [run, step, bind, Prog.bind, henter]
  exact hrun

/-- C20 from the time 19:59:59, for the keys 2, 9, 9 and the first two of them: the key
2 at hour-tens gives the hour 29 with the cursor at hour-ones, where 9 is not allowed. -/
theorem C20_edit_buffer_bounds_witness :
    (displayingWith SETSTATE.HOURTENS (TIME_T.mk 0 0 0)).ui_state = UISTATE.TIME ∧
    (displayingWith SETSTATE.HOURTENS (TIME_T.mk 0 0 0)).init_check = 0 ∧
    (World.mk (TIME_T.mk 19 59 59) false noErr 0 []).timeOfDay.valid ∧
    (∀ k ∈ [0x32, 0x39, 0x39], k < 256 ∧ k ≠ A_PRESS ∧ k ≠ C_PRESS) ∧
    (World.mk (TIME_T.mk 19 59 59) false noErr 0 []).noError ∧
    ∃ l1 w1, run (Event.pass 0x23 :: (([0x32, 0x39, 0x39] : List Nat).take 2).map Event.pass)
        (displayingWith SETSTATE.HOURTENS (TIME_T.mk 0 0 0))
        (World.mk (TIME_T.mk 19 59 59) false noErr 0 []) = Outcome.ret l1 w1 ∧
      l1.ui_state = UISTATE.TIMESET ∧
      l1.buffertime.min ≤ 59 ∧ l1.buffertime.sec ≤ 59 ∧ l1.buffertime.hr ≤ 29 ∧
      (l1.set_state ≠ SETSTATE.HOURONES → l1.buffertime.hr ≤ 23) :=
  ⟨rfl, rfl, by decide, by decide, fun _ => rfl,
    C20_edit_buffer_bounds (displayingWith SETSTATE.HOURTENS (TIME_T.mk 0 0 0))
      (World.mk (TIME_T.mk 19 59 59) false noErr 0 []) [0x32, 0x39, 0x39] rfl rfl (by decide)
      (by decide) (fun _ => rfl) 2⟩

/-- C21, on the code: the first pass of `UITask` runs its switch on whatever the
never-assigned `user_input` holds.  From the memory after `TimeInit` (time 12:00:00),
when it holds 0x11 the pass calls `TimeSet` (a pend on the mutex and a write of
`timeOfDay` follow the snapshot) and leaves the machine in the display state `TIME`;
when it holds 0x13 the pass leaves it in `TIME` too; when it holds 0x32 the pass writes
the hour tens, so the buffer is 22:00:00 and not the snapshot, and the cursor is at
hour-ones. -/
theorem C21_first_pass_depends_on_garbage :
    (Prog.bind TimeInit (fun _ => UITask_body 0 (UITask_locals 0x11 (TIME_T.mk 0 0 0)))
        (World.reset noErr)).value
      = some { ui_state := UISTATE.TIME, set_state := SETSTATE.HOURTENS, user_input := 0x11,
               buffertime := TIME_T.mk 12 0 0, init_check := 0 } ∧
    (Prog.bind TimeInit (fun _ => UITask_body 0 (UITask_locals 0x11 (TIME_T.mk 0 0 0)))
        (World.reset noErr)).world.trace
      = [Ev.OSSemCreate Sem.timeChgFlag, Ev.OSSemCreate Sem.timeSecFlag, Ev.OSMutexCreate,
         Ev.writeTimeOfDay, Ev.rtcIrqSetup, Ev.OSTaskCreate,
         Ev.OSMutexPend, Ev.readTimeOfDay, Ev.OSMutexPost,
         Ev.LcdDispTime ROW2 COLUMN9 Layer.TIMESETLAYER 12 0 0,
         Ev.LcdCursor ROW2 COLUMN9 Layer.TIMESETLAYER CURSORON BLINKON,
         Ev.OSMutexPend, Ev.writeTimeOfDay, Ev.OSMutexPost,
         Ev.LcdHideLayer Layer.TIMESETLAYER,
         Ev.LcdDispTime ROW2 COLUMN9 Layer.TIMESETLAYER 12 0 0] ∧
    (Prog.bind TimeInit (fun _ => UITask_body 0 (UITask_locals 0x13 (TIME_T.mk 0 0 0)))
        (World.reset noErr)).value
      = some { ui_state := UISTATE.TIME, set_state := SETSTATE.HOURTENS, user_input := 0x13,
               buffertime := TIME_T.mk 12 0 0, init_check := 0 } ∧
    (Prog.bind TimeInit (fun _ => UITask_body 0 (UITask_locals 0x32 (TIME_T.mk 0 0 0)))
        (World.reset noErr)).value
      = some { ui_state := UISTATE.TIMESET, set_state := SETSTATE.HOURONES, user_input := 20,
               buffertime := TIME_T.mk 22 0 0, init_check := 0 } := by
  refine ⟨?_, ?_, ?_, ?_⟩ <;>
    simp [UITask_body, UITask_input, UITask_switch, UITask_control, UITask_digit, UITask_locals,
      TimeInit, TimeGet, TimeSet, OSMutexPend, OSMutexPost, osCall, spin, writeTime, readTime,
      emit, bind, Prog.bind, pure, World.reset, noErr, Outcome.world, Outcome.value,
      OS_ERR_NONE, A_PRESS, C_PRESS]

/-- C22: for every time of day of three arbitrary bytes, in range or not, the update of
one iteration of `timeTask` never overflows a byte: the result with the increments
reduced modulo 256 is the result computed over the natural numbers, its three fields
are bytes again, its second is at most 59, its minute is the old one, 0, or the old
one plus 1 from a value of at most 58, and its hour is the old one, 0, or the old one
plus 1 from a value of at most 22. -/
theorem C22_advance_never_overflows (t : TIME_T)
    (hb : t.hr < 256 ∧ t.min < 256 ∧ t.sec < 256) :
    advance t = advanceNat t ∧
    ((advance t).hr < 256 ∧ (advance t).min < 256 ∧ (advance t).sec < 256) ∧
    (advance t).sec ≤ 59 ∧
    ((advance t).min = t.min ∨ (advance t).min = 0 ∨
      ((advance t).min = t.min + 1 ∧ t.min ≤ 58)) ∧
    ((advance t).hr = t.hr ∨ (advance t).hr = 0 ∨
      ((advance t).hr = t.hr + 1 ∧ t.hr ≤ 22)) := by
  obtain ⟨h1, h2, h3⟩ := hb
  have he : advance t = advanceNat t := by
    unfold advance advanceNat
    split_ifs <;> simp <;> omega
  refine ⟨he, ?_⟩
  rw [he]
  unfold advanceNat
  split_ifs <;> simp <;> omega

/-- C22 at the value whose three bytes are all 255. -/
theorem C22_advance_never_overflows_witness :
    ((TIME_T.mk 255 255 255).hr < 256 ∧ (TIME_T.mk 255 255 255).min < 256 ∧
      (TIME_T.mk 255 255 255).sec < 256) ∧
    advance (TIME_T.mk 255 255 255) = advanceNat (TIME_T.mk 255 255 255) ∧
    ((advance (TIME_T.mk 255 255 255)).hr < 256 ∧ (advance (TIME_T.mk 255 255 255)).min < 256 ∧
      (advance (TIME_T.mk 255 255 255)).sec < 256) ∧
    (advance (TIME_T.mk 255 255 255)).sec ≤ 59 ∧
    ((advance (TIME_T.mk 255 255 255)).min = (TIME_T.mk 255 255 255).min ∨
      (advance (TIME_T.mk 255 255 255)).min = 0 ∨
      ((advance (TIME_T.mk 255 255 255)).min = (TIME_T.mk 255 255 255).min + 1 ∧
        (TIME_T.mk 255 255 255).min ≤ 58)) ∧
    ((advance (TIME_T.mk 255 255 255)).hr = (TIME_T.mk 255 255 255).hr ∨
      (advance (TIME_T.mk 255 255 255)).hr = 0 ∨
      ((advance (TIME_T.mk 255 255 255)).hr = (TIME_T.mk 255 255 255).hr + 1 ∧
        (TIME_T.mk 255 255 255).hr ≤ 22)) :=
  ⟨by decide, C22_advance_never_overflows (TIME_T.mk 255 255 255) (by decide)⟩

/-- C23: in every display state `TIME`, for every key code other than #, digits,
CONFIRM and CANCEL included, the pass runs to its end and leaves `ui_state`, the
cursor slot, the edit buffer and the authoritative time unchanged; the calls it makes
are those of `KeyPend` and contain no display call. -/
theorem C23_display_ignores_other_keys (l : UILocals) (w : World) (k : Nat)
    (hs : l.ui_state = UISTATE.TIME) (hi : l.init_check = 0)
    (he : w.os_err w.calls = OS_ERR_NONE) (hk : k % 256 ≠ 0x23) :
    ∃ l1 w1 added, UITask_body k l w = Outcome.ret l1 w1 ∧
      l1.ui_state = UISTATE.TIME ∧ l1.set_state = l.set_state ∧
      l1.buffertime = l.buffertime ∧ w1.timeOfDay = w.timeOfDay ∧
      w1.trace = w.trace ++ added ∧ added.filter Ev.isDisplay = [] ∧
      added = [Ev.DB 0 false, Ev.KeyPend, Ev.DB 0 true] :=
  ⟨_, _, _, UITask_body_time_other l w k hs hi he hk, hs, rfl, rfl, rfl, rfl, by decide, rfl⟩

/-- C23 for the key CONFIRM, with the buffer 23:59:59 and the cursor second-ones of an
earlier session. -/
theorem C23_display_ignores_other_keys_witness :
    (displayingWith SETSTATE.SECONDONES (TIME_T.mk 23 59 59)).ui_state = UISTATE.TIME ∧
    (displayingWith SETSTATE.SECONDONES (TIME_T.mk 23 59 59)).init_check = 0 ∧
    (World.reset noErr).os_err (World.reset noErr).calls = OS_ERR_NONE ∧
    A_PRESS % 256 ≠ 0x23 ∧
    ∃ l1 w1 added, UITask_body A_PRESS (displayingWith SETSTATE.SECONDONES (TIME_T.mk 23 59 59))
        (World.reset noErr) = Outcome.ret l1 w1 ∧
      l1.ui_state = UISTATE.TIME ∧
      l1.set_state = (displayingWith SETSTATE.SECONDONES (TIME_T.mk 23 59 59)).set_state ∧
      l1.buffertime = (displayingWith SETSTATE.SECONDONES (TIME_T.mk 23 59 59)).buffertime ∧
      w1.timeOfDay = (World.reset noErr).timeOfDay ∧
      w1.trace = (World.reset noErr).trace ++ added ∧ added.filter Ev.isDisplay = [] ∧
      added = [Ev.DB 0 false, Ev.KeyPend, Ev.DB 0 true] :=
  ⟨rfl, rfl, rfl, by decide,
    C23_display_ignores_other_keys (displayingWith SETSTATE.SECONDONES (TIME_T.mk 23 59 59))
      (World.reset noErr) A_PRESS rfl rfl rfl (by decide)⟩

end RTC
